import Mathlib

/-!
# Notification dispatch pipeline of reva: embedding and verified properties

Shallow embedding of

* `pkg/notification/notification.go` (`Notification.CheckNotification`, `Notification.Send`),
* `pkg/utils/accumulator/accumulator.go` (`New`, `startTimeout`, the loop of `Start`),
* `pkg/notification/template/template.go` (`New`, `checkTemplateName`, `parseTmplFile`),
* `pkg/notification/template/registry/registry.go` (`New`, `Put`, `Get`),
* `pkg/notification/notificationhelper/notificationhelper.go` (`Start`, `RegisterTemplates`,
  `RegisterTemplate`).

Conventions.  A Go `string` is a Lean `String` and `len` is its UTF-8 byte size.  A Go `error`
is `Option Error` (`none` is `nil`); `Error` distinguishes the dynamic types the code tests for.
Collaborators that live outside the repository (the template engines, `os`, `encoding/json`,
`mapstructure`, the broker client, the delivery handlers) are parameters of the definitions that
call them.
Effects are explicit: a function that calls a collaborator threads a world that records the calls.
-/

namespace Reva

/-- Go's builtin `len` on a string: the number of bytes. -/
def len (s : String) : Nat := s.utf8ByteSize

/-- Error values, by dynamic type. -/
inductive Error where
  /-- The type `*notification.InvalidNotificationError`, a struct of the fields `Ref`, `Msg`. -/
  | invalidNotification (Ref Msg : String)
  /-- The type `*template.TemplateFileNotFoundError`; `Err` is the text of the wrapped error. -/
  | templateFileNotFound (TemplateFileName Err : String)
  /-- The value of `errors.New` and `fmt.Errorf`: a plain message. -/
  | errorString (msg : String)
  /-- The value of `errors.Wrapf` of `github.com/pkg/errors`: a cause with a message. -/
  | withMessage (cause : Error) (msg : String)
  /-- An error produced inside a collaborator library (template engine, JSON, decoder). -/
  | library (msg : String)
  deriving DecidableEq, Repr

/-- The test `_, ok := err.(*TemplateFileNotFoundError)`. -/
def Error.isTemplateFileNotFoundError : Error → Bool
  | .templateFileNotFound _ _ => true
  | _ => false

/-- Whether the error has one of the error types the repository declares and builds
(`*InvalidNotificationError`, `*TemplateFileNotFoundError`), the errors a caller can recognise
by a type assertion; the values of `fmt.Errorf`, `errors.New` and `errors.Wrapf` and the errors
of the libraries have none of them. -/
def Error.isTyped : Error → Bool
  | .invalidNotification _ _ => true
  | .templateFileNotFound _ _ => true
  | _ => false

/-- The character class of the regular expression `[a-zA-Z0-9-]`. -/
def isNameChar (c : Char) : Bool :=
  ('a' ≤ c && c ≤ 'z') || ('A' ≤ c && c ≤ 'Z') || ('0' ≤ c && c ≤ '9') || c == '-'

/-- The call `regexp.MustCompile("[a-zA-Z0-9-]").ReplaceAllString(s, "")`: every match of the
one-character class is replaced by the empty string, the other characters are kept in order. -/
def replaceAllNameChars (s : String) : String :=
  String.mk (s.data.filter (fun c => !isNameChar c))

/-! ## Delivery handlers and the record of collaborator calls -/

namespace handler

/-- The interface `handler.Handler`: `Send(sender, recipient, subject, body) error`, on a
transport whose state is `σ`. -/
structure Handler (σ : Type) where
  Send : String → String → String → String → σ → Option Error × σ

end handler

/-- One call made by `Notification.Send` to a collaborator. -/
inductive Call where
  | renderSubject
  | renderBody
  | send (sender recipient subject body : String)
  deriving DecidableEq, Repr

/-- The world `Notification.Send` runs in: the transport behind the handler and the calls made
so far, oldest first. -/
structure World (σ : Type) where
  transport : σ
  calls : List Call

/-! ## `pkg/notification/template/template.go`: the data -/

namespace template

/-- A compiled template, as the function its `Execute` computes: the text written to the buffer
and the error. -/
abbrev Compiled (D : Type) := D → String × Option Error

/-- The struct `RegistrationRequest`. -/
structure RegistrationRequest where
  Name : String
  Handler : String
  BodyTmplPath : String
  SubjectTmplPath : String
  Persistent : Bool
  deriving DecidableEq, Repr

/-- The struct `Template`; `D` is the type of the template data. -/
structure Template (D σ : Type) where
  Name : String
  Handler : handler.Handler σ
  Persistent : Bool
  tmplSubject : Compiled D
  tmplBody : Compiled D

/-- The method `RenderSubject`: `buf.String(), err` after `t.tmplSubject.Execute`. -/
def Template.RenderSubject {D σ : Type} (t : Template D σ) (arguments : D) :
    String × Option Error :=
  t.tmplSubject arguments

/-- The method `RenderBody`: `buf.String(), err` after `t.tmplBody.Execute`. -/
def Template.RenderBody {D σ : Type} (t : Template D σ) (arguments : D) :
    String × Option Error :=
  t.tmplBody arguments

/-- The method `checkTemplateName`. -/
def Template.checkTemplateName {D σ : Type} (t : Template D σ) : Bool :=
  let invalidChars := replaceAllNameChars t.Name
  len invalidChars == 0

end template

/-! ## `pkg/notification/notification.go` -/

namespace notification

/-- The struct `Notification`, with its template bound (`InitTemplate`). -/
structure Notification (D σ : Type) where
  TemplateName : String
  template : template.Template D σ
  Ref : String
  Recipients : List String

/-- The method `CheckNotification`; `none` is the `nil` error. -/
def Notification.CheckNotification {D σ : Type} (n : Notification D σ) : Option Error :=
  let invalidTemplateName := replaceAllNameChars n.TemplateName
  if len n.Ref == 0 then
    some (Error.invalidNotification n.Ref "empty ref")
  else if len invalidTemplateName > 0 then
    some (Error.invalidNotification n.Ref ("invalid template name " ++ n.TemplateName))
  else if n.Recipients.length == 0 then
    some (Error.invalidNotification n.Ref "empty recipient list")
  else
    none

/-- The loop `for _, recipient := range n.Recipients` of `Send`: one handler call per recipient,
returning at the first error. -/
def sendEach {σ : Type} (h : handler.Handler σ) (sender subject body : String) :
    List String → World σ → Option Error × World σ
  | [], w => (none, w)
  | recipient :: rest, w =>
    match h.Send sender recipient subject body w.transport with
    | (some err, tr) =>
      (some err, { transport := tr, calls := w.calls ++ [Call.send sender recipient subject body] })
    | (none, tr) =>
      sendEach h sender subject body rest
        { transport := tr, calls := w.calls ++ [Call.send sender recipient subject body] }

/-- The method `Send`. -/
def Notification.Send {D σ : Type} (n : Notification D σ) (sender : String) (templateData : D)
    (w : World σ) : Option Error × World σ :=
  let w1 : World σ := { w with calls := w.calls ++ [Call.renderSubject] }
  match n.template.RenderSubject templateData with
  | (_, some err) => (some err, w1)
  | (subject, none) =>
    let w2 : World σ := { w1 with calls := w1.calls ++ [Call.renderBody] }
    match n.template.RenderBody templateData with
    | (_, some err) => (some err, w2)
    | (body, none) => sendEach n.template.Handler sender subject body n.Recipients w2

/-- What the handler answers when it is called for every recipient of the list in order, whether
or not an earlier call failed: the reference against which the first failure is located. -/
def handlerAnswers {σ : Type} (h : handler.Handler σ) (sender subject body : String) :
    List String → σ → List (Option Error)
  | [], _ => []
  | recipient :: rest, tr =>
    (h.Send sender recipient subject body tr).1 ::
      handlerAnswers h sender subject body rest (h.Send sender recipient subject body tr).2

/-- The transport after the handler has been called for every recipient of the list in order,
whether or not a call failed. -/
def transportAfter {σ : Type} (h : handler.Handler σ) (sender subject body : String) :
    List String → σ → σ
  | [], tr => tr
  | recipient :: rest, tr =>
    transportAfter h sender subject body rest (h.Send sender recipient subject body tr).2

/-- The validity condition on a notification: a non-empty `Ref`, a `TemplateName` made of
characters of `[A-Za-z0-9-]`, a non-empty recipient list. -/
def Valid {D σ : Type} (n : Notification D σ) : Prop :=
  n.Ref ≠ "" ∧ (∀ c ∈ n.TemplateName.data, isNameChar c = true) ∧ n.Recipients ≠ []

instance {D σ : Type} (n : Notification D σ) : Decidable (Valid n) := by
  unfold Valid; infer_instance

/-- A handler that does nothing and succeeds. -/
def nullHandler : handler.Handler Unit := { Send := fun _ _ _ _ tr => (none, tr) }

/-- A template that renders two constant texts. -/
def constTemplate : template.Template Unit Unit :=
  { Name := "t", Handler := nullHandler, Persistent := false,
    tmplSubject := fun _ => ("s", none), tmplBody := fun _ => ("b", none) }

/-- A notification over `constTemplate` with the given fields. -/
def mkNotification (ref templateName : String) (recipients : List String) :
    Notification Unit Unit :=
  { TemplateName := templateName, template := constTemplate, Ref := ref,
    Recipients := recipients }

/-- A handler that fails for the recipient `bad` and succeeds for every other one. -/
def failingFor (bad : String) : handler.Handler Unit :=
  { Send := fun _ recipient _ _ tr =>
      (if recipient = bad then some (Error.errorString ("cannot deliver to " ++ recipient))
        else none, tr) }

/-- A handler whose transport is the list of the recipients it was called for, oldest first,
failed calls included, and which fails for the recipient `bad`. -/
def recordingHandler (bad : String) : handler.Handler (List String) :=
  { Send := fun _ recipient _ _ tr =>
      (if recipient = bad then some (Error.errorString ("cannot deliver to " ++ recipient))
        else none, tr ++ [recipient]) }

/-- A notification to `r1`, `r2`, `r3` whose recording handler fails for `r2`. -/
def threeRecorded : Notification Unit (List String) :=
  { TemplateName := "t", Ref := "ref", Recipients := ["r1", "r2", "r3"],
    template := { Name := "t", Handler := recordingHandler "r2", Persistent := false,
                  tmplSubject := fun _ => ("s", none), tmplBody := fun _ => ("b", none) } }

/-- A notification to `r1`, `r2`, `r3` whose handler fails for `r2`. -/
def threeRecipients : Notification Unit Unit :=
  { TemplateName := "t", Ref := "ref", Recipients := ["r1", "r2", "r3"],
    template := { Name := "t", Handler := failingFor "r2", Persistent := false,
                  tmplSubject := fun _ => ("s", none), tmplBody := fun _ => ("b", none) } }

end notification

namespace notification

/-- A notification whose subject template fails to render. -/
def failingSubject : Notification Unit Unit :=
  { TemplateName := "t", Ref := "ref", Recipients := ["r1"],
    template := { Name := "t", Handler := failingFor "r1", Persistent := false,
                  tmplSubject := fun _ => ("", some (Error.library "subject: no such field")),
                  tmplBody := fun _ => ("b", none) } }

/-- A notification whose subject renders and whose body template fails to render. -/
def failingBody : Notification Unit Unit :=
  { TemplateName := "t", Ref := "ref", Recipients := ["r1"],
    template := { Name := "t", Handler := failingFor "r1", Persistent := false,
                  tmplSubject := fun _ => ("s", none),
                  tmplBody := fun _ => ("<p>", some (Error.library "body: no such field")) } }

end notification

/-! ## `pkg/utils/accumulator/accumulator.go`

The consumption loop of `Start` and the timer goroutines of `startTimeout` run concurrently over
the fields of one `Accumulator`.  They are embedded as a transition system whose steps are the
atomic actions of the goroutines, interleaved in any order: the loop takes one case of its
`select` and runs the case body, a timer returns from `time.Sleep` and runs its `select`, a timer
runs its final assignment.  The callback `fn` is recorded by its arguments. -/

namespace accumulator

/-- A channel made by `make(chan bool)` in `startTimeout`, named by its creation rank. -/
abbrev Chan := Nat

/-- The struct `Accumulator`: `timeout` is a `time.Duration` in nanoseconds, `timeoutChan` is
`none` for `nil`, `timeoutResetChan` is the number of signals held by the channel of capacity
one.  The input channel is unbuffered and holds nothing between two steps. -/
structure Accumulator (T : Type) where
  timeout : Int
  timeoutChan : Option Chan
  timeoutResetChan : Nat
  maxSize : Int
  pool : List T
  deriving DecidableEq, Repr

/-- The constant `time.Second`. -/
def Second : Int := 1000000000

/-- The function `New`, with the warnings it logs. -/
def New (T : Type) (timeout : Int) (maxSize : Int) : Accumulator T × List String :=
  let (timeout, log1) :=
    if timeout == 0 then
      (60 * Second,
        ["timeout must be a positive duration greater than zero, using default ("
          ++ toString (60 * Second) ++ ")"])
    else (timeout, [])
  let (maxSize, log2) :=
    if maxSize == 0 then
      ((100 : Int),
        log1 ++ ["maxSize must be a positive integer greater than zero, using default ("
          ++ toString (100 : Int) ++ ")"])
    else (maxSize, log1)
  ({ timeout := timeout, timeoutChan := none, timeoutResetChan := 0, maxSize := maxSize,
     pool := [] }, log2)

/-- Where a timer goroutine of `startTimeout` stands. -/
inductive Timer where
  /-- In `time.Sleep(a.timeout)`. -/
  | sleeping
  /-- Blocked in `a.timeoutChan <- true`, on the channel the field held when the send began. -/
  | sending (c : Option Chan)
  /-- The send has been received; `a.timeoutChan = nil` is next. -/
  | clearing
  /-- Returned. -/
  | done
  deriving DecidableEq, Repr

/-- Where the loop goroutine of `Start` stands. -/
inductive Loop where
  /-- In its `select`, on `a.Input` and on the channel `a.timeoutChan` held at entry. -/
  | select (c : Option Chan)
  /-- Blocked in `a.timeoutResetChan <- true`, the buffer being full. -/
  | sendingReset
  deriving DecidableEq, Repr

/-- The accumulator with its goroutines: `chans` counts the channels made, `flushed` lists the
arguments of the calls of `fn`, oldest first. -/
structure System (T : Type) where
  a : Accumulator T
  loop : Loop
  timers : List Timer
  chans : Nat
  flushed : List (List T)
  deriving DecidableEq, Repr

/-- The method `startTimeout`, up to the `go` statement: the goroutine it spawns starts
sleeping. -/
def startTimeout {T : Type} (s : System T) : System T :=
  match s.a.timeoutChan with
  | none =>
    { s with a := { s.a with timeoutChan := some s.chans }, chans := s.chans + 1,
             timers := s.timers ++ [Timer.sleeping] }
  | some _ => s

/-- The end of the size-triggered branch once the reset signal is in the buffer:
`a.timeoutChan = nil`, then the next iteration enters `select`. -/
def afterReset {T : Type} (s : System T) : System T :=
  { s with a := { s.a with timeoutChan := none }, loop := Loop.select none }

/-- The statement `a.timeoutResetChan <- true`: it completes when the buffer has room and
blocks the loop otherwise. -/
def sendReset {T : Type} (s : System T) : System T :=
  if s.a.timeoutResetChan < 1 then
    afterReset { s with a := { s.a with timeoutResetChan := s.a.timeoutResetChan + 1 } }
  else
    { s with loop := Loop.sendingReset }

/-- The body of `case i := <-a.Input`. -/
def onInput {T : Type} (s : System T) (i : T) : System T :=
  let s1 := startTimeout s
  let s2 : System T := { s1 with a := { s1.a with pool := s1.a.pool ++ [i] } }
  if (s2.a.pool.length : Int) ≥ s2.a.maxSize then
    let s3 : System T := { s2 with flushed := s2.flushed ++ [s2.a.pool] }
    let s4 : System T := { s3 with a := { s3.a with pool := [] } }
    sendReset s4
  else
    { s2 with loop := Loop.select s2.a.timeoutChan }

/-- The body of `case <-a.timeoutChan`. -/
def onTimeout {T : Type} (s : System T) : System T :=
  if s.a.pool.length > 0 then
    let s1 : System T := { s with flushed := s.flushed ++ [s.a.pool] }
    let s2 : System T := { s1 with a := { s1.a with pool := [] } }
    let s3 : System T := { s2 with a := { s2.a with timeoutChan := none } }
    { s3 with loop := Loop.select s3.a.timeoutChan }
  else
    { s with loop := Loop.select s.a.timeoutChan }

/-- The `select` of a timer goroutine after its sleep: it takes a reset signal when one is
buffered (a loop blocked on the full buffer then completes its send), and otherwise begins
`a.timeoutChan <- true`. -/
def onWake {T : Type} (s : System T) (j : Nat) : System T :=
  if s.a.timeoutResetChan > 0 then
    let s1 : System T :=
      { s with a := { s.a with timeoutResetChan := s.a.timeoutResetChan - 1 },
               timers := s.timers.set j Timer.done }
    match s1.loop with
    | Loop.sendingReset => sendReset s1
    | Loop.select _ => s1
  else
    { s with timers := s.timers.set j (Timer.sending s.a.timeoutChan) }

/-- An atomic action of one goroutine. -/
inductive Event (T : Type) where
  /-- The loop receives the item `i` from `a.Input`. -/
  | input (i : T)
  /-- The loop receives from its timeout channel what timer `j` sends. -/
  | timeout (j : Nat)
  /-- Timer `j` returns from its sleep. -/
  | wake (j : Nat)
  /-- Timer `j` runs `a.timeoutChan = nil`. -/
  | clear (j : Nat)
  deriving DecidableEq, Repr

/-- One step of the system; `none` when the action is not enabled in the state. -/
def step {T : Type} (s : System T) : Event T → Option (System T)
  | Event.input i =>
    match s.loop with
    | Loop.select _ => some (onInput s i)
    | Loop.sendingReset => none
  | Event.timeout j =>
    match s.loop, s.timers[j]? with
    | Loop.select (some c), some (Timer.sending (some d)) =>
      if c = d then some (onTimeout { s with timers := s.timers.set j Timer.clearing })
      else none
    | _, _ => none
  | Event.wake j =>
    match s.timers[j]? with
    | some Timer.sleeping => some (onWake s j)
    | _ => none
  | Event.clear j =>
    match s.timers[j]? with
    | some Timer.clearing =>
      some { s with a := { s.a with timeoutChan := none }, timers := s.timers.set j Timer.done }
    | _ => none

/-- A sequence of steps. -/
def run {T : Type} (s : System T) : List (Event T) → Option (System T)
  | [] => some s
  | e :: es =>
    match step s e with
    | some s1 => run s1 es
    | none => none

/-- The method `Start`: an error when `fn` is `nil`, and otherwise the system in which the loop
goroutine has entered its first `select`. -/
def Start {T : Type} (a : Accumulator T) (fnIsNil : Bool) : Except Error (System T) :=
  if fnIsNil then
    Except.error (Error.errorString "fn must be a callback function")
  else
    Except.ok { a := a, loop := Loop.select a.timeoutChan, timers := [], chans := 0,
                flushed := [] }

/-- The system started on `New timeout maxSize` with a callback. -/
def fresh (T : Type) (timeout maxSize : Int) : System T :=
  { a := (New T timeout maxSize).1, loop := Loop.select none, timers := [], chans := 0,
    flushed := [] }

/-- The items received by the loop in a sequence of steps, in order of arrival. -/
def inputs {T : Type} : List (Event T) → List T
  | [] => []
  | Event.input i :: es => i :: inputs es
  | _ :: es => inputs es

/-- An event of the loop: the `select` case it takes. -/
inductive LoopEvent (T : Type) where
  | input (i : T)
  | timeout
  deriving DecidableEq, Repr

/-- The events of the loop in a sequence of steps, the steps of the timers left out. -/
def loopEvents {T : Type} : List (Event T) → List (LoopEvent T)
  | [] => []
  | Event.input i :: es => LoopEvent.input i :: loopEvents es
  | Event.timeout _ :: es => LoopEvent.timeout :: loopEvents es
  | _ :: es => loopEvents es

/-- A run in which a batch is flushed by size and the next by the timer. -/
def demoRun : List (Event Nat) :=
  [Event.input 1, Event.input 2, Event.input 3, Event.wake 0, Event.wake 1, Event.timeout 1,
   Event.clear 1]

/-- The state `demoRun` leads to from `fresh Nat 5 2`. -/
def demoEnd : System Nat :=
  { a := { timeout := 5, timeoutChan := none, timeoutResetChan := 0, maxSize := 2, pool := [] },
    loop := Loop.select none, timers := [Timer.done, Timer.done], chans := 2,
    flushed := [[1, 2], [3]] }

/-- A run in which the timer of the first window has begun its send when the second item
arrives and fills the batch, and the timer of the second window then wakes up. -/
def staleRun : List (Event Nat) :=
  [Event.input 1, Event.wake 0, Event.input 2, Event.input 3, Event.wake 1]

/-- The state `staleRun` leads to from `fresh Nat 5 2`. -/
def staleEnd : System Nat :=
  { a := { timeout := 5, timeoutChan := some 1, timeoutResetChan := 0, maxSize := 2,
           pool := [3] },
    loop := Loop.select (some 1), timers := [Timer.sending (some 0), Timer.done], chans := 2,
    flushed := [[1, 2]] }

end accumulator

/-! ## `pkg/notification/template/template.go`: construction -/

namespace template

/-- The enumeration `TemplateType`. -/
inductive TemplateType where
  | Subject
  | Body
  deriving DecidableEq, Repr

/-- What `os.Open(path)` followed by `io.ReadAll` gives for a path. -/
inductive File where
  /-- The call `os.Open` fails with this error. -/
  | openError (err : String)
  /-- The call `os.Open` succeeds and `io.ReadAll` fails with this error. -/
  | readError (err : String)
  /-- Both succeed and the file holds this text. -/
  | data (content : String)
  deriving DecidableEq, Repr

/-- The error with which a file is missing or unreadable, if it is. -/
def File.failure : File → Option String
  | File.openError err => some err
  | File.readError err => some err
  | File.data _ => none

/-- The collaborators of `New`: `mapstructure.Decode` into a fresh `RegistrationRequest` (the
request as far as it was filled, and the error), the file system, and the parsers
`textTemplate.New("subject").Parse` and `htmlTemplate.New("body").Parse` (the compiled template
or the text of the syntax error).  `M` is the type of `map[string]interface{}` values. -/
structure Env (M D : Type) where
  decode : M → RegistrationRequest × Option Error
  file : String → File
  parseText : String → Except String (Compiled D)
  parseHtml : String → Except String (Compiled D)

/-- The function `parseTmplFile`. -/
def parseTmplFile {M D : Type} (env : Env M D) (path : String) (t : TemplateType) :
    Except Error (Compiled D) :=
  match env.file path with
  | File.openError err => Except.error (Error.templateFileNotFound path err)
  | File.readError err => Except.error (Error.templateFileNotFound path err)
  | File.data data =>
    match t with
    | TemplateType.Subject =>
      match env.parseText data with
      | Except.error err => Except.error (Error.library err)
      | Except.ok tmpl => Except.ok tmpl
    | TemplateType.Body =>
      match env.parseHtml data with
      | Except.error err => Except.error (Error.library err)
      | Except.ok tmpl => Except.ok tmpl

/-- The function `New`: the template (`none` for `nil`), the name, the error and the flag
used for deletion from the key-value store.  `hs` is the handler table. -/
def New {M D σ : Type} (env : Env M D) (m : M) (hs : String → Option (handler.Handler σ)) :
    Option (Template D σ) × String × Option Error × Bool :=
  match env.decode m with
  | (rr, some err) => (none, rr.Name, some err, false)
  | (rr, none) =>
    match hs rr.Handler with
    | none => (none, rr.Name, some (Error.errorString ("unknown handler " ++ rr.Handler)), false)
    | some h =>
      match parseTmplFile env rr.SubjectTmplPath TemplateType.Subject with
      | Except.error err => (none, rr.Name, some err, err.isTemplateFileNotFoundError)
      | Except.ok tmplSubject =>
        match parseTmplFile env rr.BodyTmplPath TemplateType.Body with
        | Except.error err => (none, rr.Name, some err, err.isTemplateFileNotFoundError)
        | Except.ok tmplBody =>
          let t : Template D σ :=
            { Name := rr.Name, Handler := h, Persistent := false,
              tmplSubject := tmplSubject, tmplBody := tmplBody }
          if !t.checkTemplateName then
            (none, rr.Name,
              some (Error.errorString ("template name " ++ rr.Name
                ++ " must contain only alphanumeric characters and hyphens")), false)
          else
            (some t, rr.Name, none, false)

/-- A name made only of characters of `[A-Za-z0-9-]`. -/
def ValidName (name : String) : Prop := ∀ c ∈ name.data, isNameChar c = true

instance (name : String) : Decidable (ValidName name) := by
  unfold ValidName; infer_instance

/-- A parser that rejects the text `{{` and compiles any other text to itself. -/
def demoParse (src : String) : Except String (Compiled Unit) :=
  if src = "\x7b\x7b" then Except.error "unclosed action" else Except.ok (fun _ => (src, none))

/-- Collaborators for the examples: requests arrive decoded, `missing.tmpl` does not exist,
`bad.tmpl` holds `{{`, `b.tmpl` holds `Bye`, every other path holds `Hello`. -/
def demoEnv : Env RegistrationRequest Unit :=
  { decode := fun rr => (rr, none),
    file := fun path =>
      if path = "missing.tmpl" then File.openError "no such file or directory"
      else if path = "bad.tmpl" then File.data "\x7b\x7b"
      else if path = "b.tmpl" then File.data "Bye"
      else File.data "Hello",
    parseText := demoParse,
    parseHtml := demoParse }

/-- A handler table with the one handler `mail`. -/
def demoHandlers : String → Option (handler.Handler Unit) :=
  fun name => if name = "mail" then some notification.nullHandler else none

/-- A request for handler `mail` with the given name and paths. -/
def demoRequest (name subjectPath bodyPath : String) : RegistrationRequest :=
  { Name := name, Handler := "mail", BodyTmplPath := bodyPath, SubjectTmplPath := subjectPath,
    Persistent := true }

end template

/-! ## `pkg/notification/template/registry/registry.go` -/

namespace registry

/-- The struct `Registry`: the map `store`, as the lookup it answers. -/
structure Registry (D σ : Type) where
  store : String → Option (template.Template D σ)

/-- The function `New`. -/
def New (D σ : Type) : Registry D σ := { store := fun _ => none }

/-- The method `Put`: the registry afterwards, the name (`none` for `nil`), the error and the
deletion flag.  `unmarshal` is `json.Unmarshal` into a `map[string]interface{}`.  The result is
`none` when the method panics, on `*t` for a `nil` template without an error. -/
def Registry.Put {M D σ : Type} (r : Registry D σ) (env : template.Env M D)
    (unmarshal : List UInt8 → Except String M) (tb : List UInt8)
    (hs : String → Option (handler.Handler σ)) :
    Option (Registry D σ × Option String × Option Error × Bool) :=
  match unmarshal tb with
  | Except.error err =>
    some (r, none,
      some (Error.withMessage (Error.library err) "template registration unmarshall failed"),
      false)
  | Except.ok data =>
    match template.New env data hs with
    | (_, name, some err, delete) =>
      some (r, some name,
        some (Error.withMessage err ("template " ++ name ++ " registration failed")), delete)
    | (some t, _, none, _) =>
      some ({ store := fun n => if n = t.Name then some t else r.store n }, some t.Name, none,
        false)
    | (none, _, none, _) => none

/-- The method `Get`. -/
def Registry.Get {D σ : Type} (r : Registry D σ) (n : String) :
    Option (template.Template D σ) × Option Error :=
  match r.store n with
  | some t => (some t, none)
  | none => (none, some (Error.errorString ("template " ++ n ++ " not found")))

/-- A decoder for the examples: the payload `[1]` is a request named `welcome` reading
`a.tmpl` twice, the payload `[2]` a request of the same name reading `b.tmpl` twice, any other
payload is not JSON. -/
def demoUnmarshal (tb : List UInt8) : Except String template.RegistrationRequest :=
  if tb = [1] then Except.ok (template.demoRequest "welcome" "a.tmpl" "a.tmpl")
  else if tb = [2] then Except.ok (template.demoRequest "welcome" "b.tmpl" "b.tmpl")
  else Except.error "invalid character"

end registry

/-! ## `pkg/notification/notificationhelper/notificationhelper.go` -/

namespace utils

/-- Modelled from the spec: the helper `utils.WithDefault`, whose source is not part of the
files at hand; `Start` "applies a default stream name if unset": an empty value is replaced by
the default. -/
def WithDefault (current defaultValue : String) : String :=
  if current = "" then defaultValue else current

end utils

namespace notificationhelper

/-- The struct `NotificationHelperConfig`. -/
structure NotificationHelperConfig where
  NatsAddress : String
  NatsToken : String
  NatsStream : String
  deriving DecidableEq, Repr

/-- The fields of `nats.StreamConfig` that `Start` sets. -/
structure StreamConfig where
  Name : String
  Subjects : List String
  deriving DecidableEq, Repr

/-- One call made to the broker client. -/
inductive BrokerCall where
  | Connect (address token : String)
  | JetStream (publishAsyncMaxPending : Nat)
  | StreamInfo (stream : String)
  | AddStream (cfg : StreamConfig)
  | CreateKeyValue (bucket : String)
  | Put (key : String) (value : List UInt8)
  deriving DecidableEq, Repr

/-- The broker client `nats.go`, over a broker whose state is `β`: every operation answers and
moves the broker.  `StreamInfo` answers the stream pointer (`none` for `nil`) and the error. -/
structure Nats (β : Type) where
  Connect : String → String → β → Option Error × β
  JetStream : β → Option Error × β
  StreamInfo : String → β → (Option StreamConfig × Option Error) × β
  AddStream : StreamConfig → β → Option Error × β
  CreateKeyValue : String → β → Option Error × β
  Put : String → List UInt8 → β → Option Error × β

/-- The encoders `Start` relies on: `mapstructure.Decode` of the configured templates into
registration requests (in the order the map is ranged over) and `json.Marshal` of a request.
`M` is the type of `map[string]interface{}` values. -/
structure Codec (M : Type) where
  decode : List (String × M) → Except Error (List template.RegistrationRequest)
  marshal : template.RegistrationRequest → Except String (List UInt8)

/-- The world the helper runs in: the broker, the calls made to it and the lines logged, oldest
first. -/
structure BrokerWorld (β : Type) where
  broker : β
  calls : List BrokerCall
  log : List String

/-- The struct `NotificationHelper`; `nc`, `js` and `kv` tell whether the handle is set. -/
structure NotificationHelper where
  Name : String
  Conf : NotificationHelperConfig
  nc : Bool
  js : Bool
  kv : Bool
  deriving DecidableEq, Repr

/-- The method `RegisterTemplate`. -/
def RegisterTemplate {β M : Type} (nats : Nats β) (codec : Codec M)
    (rr : template.RegistrationRequest) (w : BrokerWorld β) : BrokerWorld β :=
  match codec.marshal rr with
  | Except.error _ =>
    { w with log := w.log ++ ["template registration json marshalling failed"] }
  | Except.ok tb =>
    match nats.Put rr.Name tb w.broker with
    | (some _, b) =>
      { broker := b, calls := w.calls ++ [BrokerCall.Put rr.Name tb],
        log := w.log ++ ["template registration publish failed",
                         rr.Name ++ " template registration published"] }
    | (none, b) =>
      { broker := b, calls := w.calls ++ [BrokerCall.Put rr.Name tb],
        log := w.log ++ [rr.Name ++ " template registration published"] }

/-- The method `RegisterTemplates`: the count, the error and the world afterwards. -/
def RegisterTemplates {β M : Type} (nats : Nats β) (codec : Codec M)
    (ts : List (String × M)) (w : BrokerWorld β) : (Nat × Option Error) × BrokerWorld β :=
  if ts.length == 0 then
    ((0, none), w)
  else
    match codec.decode ts with
    | Except.error err => ((0, some err), w)
    | Except.ok tc =>
      ((tc.length, none), tc.foldl (fun w1 c => RegisterTemplate nats codec c w1) w)

/-- The method `Start`: the error, the helper and the world afterwards. -/
def Start {β M : Type} (nats : Nats β) (codec : Codec M) (nh0 : NotificationHelper)
    (ts : List (String × M)) (w : BrokerWorld β) :
    Option Error × NotificationHelper × BrokerWorld β :=
  let nh : NotificationHelper :=
    { nh0 with Conf := { nh0.Conf with
        NatsStream := utils.WithDefault nh0.Conf.NatsStream "reva-notifications" } }
  let w1 : BrokerWorld β :=
    { w with calls := w.calls ++ [BrokerCall.Connect nh.Conf.NatsAddress nh.Conf.NatsToken] }
  match nats.Connect nh.Conf.NatsAddress nh.Conf.NatsToken w.broker with
  | (some err, b) =>
    (some (Error.withMessage err
      ("connection to nats server at \x27" ++ nh.Conf.NatsAddress ++ "\x27 failed")),
      nh, { w1 with broker := b })
  | (none, b1) =>
    let nh : NotificationHelper := { nh with nc := true }
    let w2 : BrokerWorld β :=
      { w1 with broker := b1, calls := w1.calls ++ [BrokerCall.JetStream 256] }
    match nats.JetStream b1 with
    | (some err, b) =>
      (some (Error.withMessage err "jetstream initialization failed"), nh,
        { w2 with broker := b })
    | (none, b2) =>
      let w3 : BrokerWorld β :=
        { w2 with calls := w2.calls ++ [BrokerCall.StreamInfo nh.Conf.NatsStream] }
      match nats.StreamInfo nh.Conf.NatsStream b2 with
      | ((stream, _), b3) =>
        let cfg : StreamConfig :=
          { Name := nh.Conf.NatsStream,
            Subjects := [nh.Conf.NatsStream ++ ".notification",
                         nh.Conf.NatsStream ++ ".trigger"] }
        let created : Option Error × BrokerWorld β :=
          if stream.isSome then
            ((nats.AddStream cfg b3).1,
              { w3 with broker := (nats.AddStream cfg b3).2,
                        calls := w3.calls ++ [BrokerCall.AddStream cfg] })
          else
            (none, { w3 with broker := b3 })
        match created with
        | (some err, w4) => (some (Error.withMessage err "nats stream creation failed"), nh, w4)
        | (none, w4) =>
          let nh : NotificationHelper := { nh with js := true }
          let bucketName := nh.Conf.NatsStream ++ "-template"
          let w5 : BrokerWorld β :=
            { w4 with calls := w4.calls ++ [BrokerCall.CreateKeyValue bucketName] }
          match nats.CreateKeyValue bucketName w4.broker with
          | (some err, b) =>
            (some (Error.withMessage err "template store creation failed"), nh,
              { w5 with broker := b })
          | (none, b5) =>
            let nh : NotificationHelper := { nh with kv := true }
            match RegisterTemplates nats codec ts { w5 with broker := b5 } with
            | ((_, some err), w6) =>
              (some (Error.withMessage err "template registration failed"), nh, w6)
            | ((tCount, none), w6) =>
              if tCount == 0 then
                (none, nh, { w6 with log := w6.log ++ ["no templates to register"] })
              else
                (none, nh, { w6 with log := w6.log ++
                  [toString tCount ++ " notification templates successfully registered"] })

/-- Whether a call is the stream-creation call. -/
def BrokerCall.isAddStream : BrokerCall → Bool
  | BrokerCall.AddStream _ => true
  | _ => false

/-- A broker as the list of its streams, with a client that always connects: `StreamInfo`
answers the stream of that name or `nil` with an error, `AddStream` adds an absent stream,
accepts an identical one and refuses a different one of the same name. -/
def demoNats : Nats (List StreamConfig) :=
  { Connect := fun _ _ b => (none, b),
    JetStream := fun b => (none, b),
    StreamInfo := fun name b =>
      match b.find? (fun c => c.Name == name) with
      | some c => ((some c, none), b)
      | none => ((none, some (Error.library "nats: stream not found")), b),
    AddStream := fun cfg b =>
      match b.find? (fun c => c.Name == cfg.Name) with
      | some c =>
        if c = cfg then (none, b)
        else (some (Error.library "nats: stream name already in use"), b)
      | none => (none, b ++ [cfg]),
    CreateKeyValue := fun _ b => (none, b),
    Put := fun _ _ b => (none, b) }

/-- Encoders for the examples: no template is configured. -/
def demoCodec : Codec Unit :=
  { decode := fun _ => Except.ok [], marshal := fun _ => Except.ok [] }

/-- A helper that is not started, with an unset stream name. -/
def demoHelper : NotificationHelper :=
  { Name := "svc", Conf := { NatsAddress := "nats:4222", NatsToken := "tok", NatsStream := "" },
    nc := false, js := false, kv := false }

/-- The stream `Start` is meant to provide for the default stream name. -/
def demoStream : StreamConfig :=
  { Name := "reva-notifications",
    Subjects := ["reva-notifications.notification", "reva-notifications.trigger"] }

end notificationhelper

/-! ## Lemmas on strings -/

theorem len_eq_zero_iff (s : String) : len s = 0 ↔ s = "" := by
  obtain ⟨l⟩ := s
  cases l with
  | nil => simp [len, String.utf8ByteSize, String.utf8ByteSize.go]
  | cons c cs =>
    have hc := Char.utf8Size_pos c
    constructor
    · intro h
      simp only [len, String.utf8ByteSize, String.utf8ByteSize.go] at h
      omega
    · intro h
      exact absurd (congrArg String.data h) (by simp)

theorem replaceAllNameChars_eq_empty_iff (s : String) :
    replaceAllNameChars s = "" ↔ ∀ c ∈ s.data, isNameChar c = true := by
  unfold replaceAllNameChars
  constructor
  · intro h c hc
    have h1 : s.data.filter (fun c => !isNameChar c) = [] := congrArg String.data h
    rw [List.filter_eq_nil_iff] at h1
    simpa using h1 c hc
  · intro h
    have h1 : s.data.filter (fun c => !isNameChar c) = [] := by
      rw [List.filter_eq_nil_iff]
      intro c hc
      simp [h c hc]
    rw [h1]

/-! ## Properties of `Notification.CheckNotification` -/

namespace notification

theorem CheckNotification_eq_none_iff {D σ : Type} (n : Notification D σ) :
    n.CheckNotification = none ↔ Valid n := by
  have hRef : (len n.Ref == 0) = true ↔ n.Ref = "" := by
    rw [beq_iff_eq]; exact len_eq_zero_iff _
  have hName : len (replaceAllNameChars n.TemplateName) > 0 ↔
      ¬ ∀ c ∈ n.TemplateName.data, isNameChar c = true := by
    rw [← replaceAllNameChars_eq_empty_iff, ← len_eq_zero_iff]; omega
  have hRec : (n.Recipients.length == 0) = true ↔ n.Recipients = [] := by
    rw [beq_iff_eq]; exact List.length_eq_zero
  unfold Notification.CheckNotification Valid
  by_cases h1 : n.Ref = ""
  · simp only [hRef.mpr h1]
    simp [h1]
  · by_cases h2 : ∀ c ∈ n.TemplateName.data, isNameChar c = true
    · have h2n : ¬ len (replaceAllNameChars n.TemplateName) > 0 := fun h => hName.mp h h2
      by_cases h3 : n.Recipients = []
      · simp only [mt hRef.mp h1, h2n, hRec.mpr h3]
        simp [h3]
      · simp only [mt hRef.mp h1, h2n, mt hRec.mp h3]
        simp [h1, h3]
        exact h2
    · have h2p : len (replaceAllNameChars n.TemplateName) > 0 := hName.mpr h2
      simp only [mt hRef.mp h1, h2p]
      simp
      intro _ h
      exact absurd h h2

theorem CheckNotification_ref {D σ : Type} (n : Notification D σ)
    (e : Error) (h : n.CheckNotification = some e) :
    ∃ msg, e = Error.invalidNotification n.Ref msg := by
  unfold Notification.CheckNotification at h
  simp only at h
  split_ifs at h <;> simp at h <;> exact ⟨_, h.symm⟩

/-- C1: `CheckNotification` returns no error exactly when `Ref` is non-empty, every character of
`TemplateName` is in `[A-Za-z0-9-]` and `Recipients` is non-empty; otherwise it returns an
`InvalidNotificationError` whose `Ref` is the notification's.  The three rejected and the one
accepted notification of the specification evaluate accordingly. -/
theorem CheckNotification_spec {D σ : Type} (n : Notification D σ) :
    (n.CheckNotification = none ↔ Valid n) ∧
    (¬ Valid n → ∃ msg, n.CheckNotification = some (Error.invalidNotification n.Ref msg)) ∧
    (mkNotification "" "x" ["a"]).CheckNotification
      = some (Error.invalidNotification "" "empty ref") ∧
    (mkNotification "r" "bad name!" ["a"]).CheckNotification
      = some (Error.invalidNotification "r" "invalid template name bad name!") ∧
    (mkNotification "r" "ok-1" []).CheckNotification
      = some (Error.invalidNotification "r" "empty recipient list") ∧
    (mkNotification "r1" "welcome-en" ["a@x.com"]).CheckNotification = none := by
  refine ⟨CheckNotification_eq_none_iff n, ?_, by decide, by decide, by decide, by decide⟩
  intro hv
  cases hc : n.CheckNotification with
  | none => exact absurd ((CheckNotification_eq_none_iff n).mp hc) hv
  | some e =>
    obtain ⟨msg, hmsg⟩ := CheckNotification_ref n e hc
    exact ⟨msg, by rw [hmsg]⟩

theorem CheckNotification_spec_witness :
    ¬ Valid (mkNotification "r" "bad name!" ["a"]) ∧
    ∃ msg, (mkNotification "r" "bad name!" ["a"]).CheckNotification
      = some (Error.invalidNotification (mkNotification "r" "bad name!" ["a"]).Ref msg) :=
  ⟨by decide, (CheckNotification_spec (mkNotification "r" "bad name!" ["a"])).2.1 (by decide)⟩

/-! ## Properties of `Notification.Send` -/

/-- The loop stops at the first failing call: its error is returned, and the world is the one
reached by calling the handler for the recipients up to that one, in list order. -/
theorem sendEach_first_failure {σ : Type} (h : handler.Handler σ) (sender subject body : String)
    (rs : List String) (w : World σ) (i : Nat) (e : Error)
    (hi : (handlerAnswers h sender subject body rs w.transport)[i]? = some (some e))
    (hlt : ∀ j, j < i → (handlerAnswers h sender subject body rs w.transport)[j]? = some none) :
    sendEach h sender subject body rs w
      = (some e,
         { transport := transportAfter h sender subject body (rs.take (i + 1)) w.transport,
           calls := w.calls
             ++ (rs.take (i + 1)).map (fun r => Call.send sender r subject body) }) := by
  induction rs generalizing w i with
  | nil => simp [handlerAnswers] at hi
  | cons r rest ih =>
    cases i with
    | zero =>
      simp only [handlerAnswers, List.getElem?_cons_zero, Option.some.injEq] at hi
      unfold sendEach
      cases hS : h.Send sender r subject body w.transport with
      | mk a tr =>
        rw [hS] at hi
        simp only at hi
        subst hi
        simp [transportAfter, hS]
    | succ i =>
      have h0 := hlt 0 (Nat.succ_pos i)
      simp only [handlerAnswers, List.getElem?_cons_zero, Option.some.injEq] at h0
      simp only [handlerAnswers, List.getElem?_cons_succ] at hi
      unfold sendEach
      cases hS : h.Send sender r subject body w.transport with
      | mk a tr =>
        rw [hS] at h0 hi
        simp only at h0 hi
        subst h0
        have hlt2 : ∀ j, j < i →
            (handlerAnswers h sender subject body rest tr)[j]? = some none := by
          intro j hj
          have := hlt (j + 1) (Nat.succ_lt_succ hj)
          simp only [handlerAnswers, List.getElem?_cons_succ] at this
          rw [hS] at this
          exact this
        have := ih { transport := tr, calls := w.calls ++ [Call.send sender r subject body] }
          i hi hlt2
        simp only [this, List.take_succ_cons, List.map_cons, List.append_assoc,
          List.singleton_append, transportAfter, hS]

/-- Without a failing call the loop reaches the world in which the handler has been called for
every recipient, in list order. -/
theorem sendEach_no_failure {σ : Type} (h : handler.Handler σ) (sender subject body : String)
    (rs : List String) (w : World σ)
    (hall : ∀ a ∈ handlerAnswers h sender subject body rs w.transport, a = none) :
    sendEach h sender subject body rs w
      = (none,
         { transport := transportAfter h sender subject body rs w.transport,
           calls := w.calls ++ rs.map (fun r => Call.send sender r subject body) }) := by
  induction rs generalizing w with
  | nil => simp [sendEach, transportAfter]
  | cons r rest ih =>
    simp only [handlerAnswers, List.mem_cons, forall_eq_or_imp] at hall
    unfold sendEach
    cases hS : h.Send sender r subject body w.transport with
    | mk a tr =>
      rw [hS] at hall
      simp only at hall
      obtain ⟨ha, hrest⟩ := hall
      subst ha
      have := ih { transport := tr, calls := w.calls ++ [Call.send sender r subject body] } hrest
      simp only [this, List.map_cons, List.append_assoc, List.singleton_append, transportAfter,
        hS]

/-- C2: when subject and body render, `Send` is fail-fast over the recipients.  If the handler's
answers first show an error at position `i`, `Send` returns that error, and the handler has been
called exactly once for each of the first `i + 1` recipients, in list order, with
`(sender, recipient, subject, body)`, and not at all for the later ones: the calls recorded are
those calls, and the transport behind the handler is the one these calls lead to.  If no answer
is an error, `Send` returns no error after exactly one call per recipient in list order.  With
three recipients of which the second fails, a handler that records its calls has seen the first
and the second recipient once each and the third not at all, and the second's error is
returned. -/
theorem Send_fail_fast {D σ : Type} (n : Notification D σ) (sender : String) (templateData : D)
    (w : World σ) (subject body : String)
    (hs : n.template.RenderSubject templateData = (subject, none))
    (hb : n.template.RenderBody templateData = (body, none)) :
    (∀ (i : Nat) (e : Error),
      (handlerAnswers n.template.Handler sender subject body n.Recipients w.transport)[i]?
        = some (some e) →
      (∀ j, j < i →
        (handlerAnswers n.template.Handler sender subject body n.Recipients w.transport)[j]?
          = some none) →
      n.Send sender templateData w
        = (some e,
           { transport := transportAfter n.template.Handler sender subject body
               (n.Recipients.take (i + 1)) w.transport,
             calls := w.calls ++ [Call.renderSubject, Call.renderBody]
               ++ (n.Recipients.take (i + 1)).map
                    (fun r => Call.send sender r subject body) })) ∧
    ((∀ a ∈ handlerAnswers n.template.Handler sender subject body n.Recipients w.transport,
        a = none) →
      n.Send sender templateData w
        = (none,
           { transport := transportAfter n.template.Handler sender subject body
               n.Recipients w.transport,
             calls := w.calls ++ [Call.renderSubject, Call.renderBody]
               ++ n.Recipients.map (fun r => Call.send sender r subject body) })) ∧
    (threeRecorded.Send "from" () { transport := [], calls := [] }
      = (some (Error.errorString "cannot deliver to r2"),
         { transport := ["r1", "r2"],
           calls := [Call.renderSubject, Call.renderBody, Call.send "from" "r1" "s" "b",
                     Call.send "from" "r2" "s" "b"] })) ∧
    ((threeRecipients.Send "from" () { transport := (), calls := [] }).1
        = some (Error.errorString "cannot deliver to r2") ∧
      (threeRecipients.Send "from" () { transport := (), calls := [] }).2.calls
        = [Call.renderSubject, Call.renderBody, Call.send "from" "r1" "s" "b",
           Call.send "from" "r2" "s" "b"]) := by
  have hSend : n.Send sender templateData w
      = sendEach n.template.Handler sender subject body n.Recipients
          { transport := w.transport,
            calls := w.calls ++ [Call.renderSubject] ++ [Call.renderBody] } := by
    unfold Notification.Send
    simp only [hs, hb]
  refine ⟨?_, ?_, rfl, by decide, by decide⟩
  · intro i e hi hlt
    rw [hSend]
    have := sendEach_first_failure n.template.Handler sender subject body n.Recipients
      { transport := w.transport, calls := w.calls ++ [Call.renderSubject] ++ [Call.renderBody] }
      i e hi hlt
    simpa using this
  · intro hall
    rw [hSend]
    have := sendEach_no_failure n.template.Handler sender subject body n.Recipients
      { transport := w.transport, calls := w.calls ++ [Call.renderSubject] ++ [Call.renderBody] }
      hall
    simpa using this

theorem Send_fail_fast_witness :
    threeRecorded.Send "from" () { transport := ["r0"], calls := [Call.renderBody] }
      = (some (Error.errorString "cannot deliver to r2"),
         { transport := transportAfter threeRecorded.template.Handler "from" "s" "b"
             (threeRecorded.Recipients.take (1 + 1)) ["r0"],
           calls := [Call.renderBody] ++ [Call.renderSubject, Call.renderBody]
             ++ (threeRecorded.Recipients.take (1 + 1)).map
                  (fun r => Call.send "from" r "s" "b") }) ∧
    transportAfter threeRecorded.template.Handler "from" "s" "b"
        (threeRecorded.Recipients.take (1 + 1)) ["r0"] = ["r0", "r1", "r2"] :=
  ⟨(Send_fail_fast threeRecorded "from" () { transport := ["r0"], calls := [Call.renderBody] }
      "s" "b" rfl rfl).1 1 (Error.errorString "cannot deliver to r2") (by decide)
      (by intro j hj; interval_cases j; decide),
   by decide⟩

/-- C3: a failure to render the subject is returned by `Send` after the subject rendering alone,
with no body rendering and no handler call (the transport is untouched); a failure to render the
body after a rendered subject is returned with no handler call. -/
theorem Send_render_failure {D σ : Type} (n : Notification D σ) (sender : String)
    (templateData : D) (w : World σ) :
    (∀ err, (n.template.RenderSubject templateData).2 = some err →
      n.Send sender templateData w
        = (some err, { transport := w.transport, calls := w.calls ++ [Call.renderSubject] })) ∧
    (∀ err, (n.template.RenderSubject templateData).2 = none →
      (n.template.RenderBody templateData).2 = some err →
      n.Send sender templateData w
        = (some err, { transport := w.transport,
                       calls := w.calls ++ [Call.renderSubject] ++ [Call.renderBody] })) := by
  constructor
  · intro err h
    unfold Notification.Send
    cases hS : n.template.RenderSubject templateData with
    | mk s o =>
      rw [hS] at h
      simp only at h
      subst h
      rfl
  · intro err h1 h2
    unfold Notification.Send
    cases hS : n.template.RenderSubject templateData with
    | mk s o =>
      cases hB : n.template.RenderBody templateData with
      | mk b o2 =>
        rw [hS] at h1
        rw [hB] at h2
        simp only at h1 h2
        subst h1
        subst h2
        rfl

end notification

namespace notification

theorem Send_render_failure_witness :
    failingSubject.Send "from" () { transport := (), calls := [] }
      = (some (Error.library "subject: no such field"),
         { transport := (), calls := [] ++ [Call.renderSubject] }) ∧
    failingBody.Send "from" () { transport := (), calls := [] }
      = (some (Error.library "body: no such field"),
         { transport := (), calls := [] ++ [Call.renderSubject] ++ [Call.renderBody] }) :=
  ⟨(Send_render_failure failingSubject "from" () { transport := (), calls := [] }).1 _ rfl,
   (Send_render_failure failingBody "from" () { transport := (), calls := [] }).2 _ rfl rfl⟩

end notification

/-! ## Properties of the accumulator -/

namespace accumulator

theorem startTimeout_pool {T : Type} (s : System T) : (startTimeout s).a.pool = s.a.pool := by
  unfold startTimeout; cases s.a.timeoutChan <;> simp

theorem startTimeout_flushed {T : Type} (s : System T) :
    (startTimeout s).flushed = s.flushed := by
  unfold startTimeout; cases s.a.timeoutChan <;> simp

theorem startTimeout_maxSize {T : Type} (s : System T) :
    (startTimeout s).a.maxSize = s.a.maxSize := by
  unfold startTimeout; cases s.a.timeoutChan <;> simp

theorem sendReset_pool {T : Type} (s : System T) : (sendReset s).a.pool = s.a.pool := by
  unfold sendReset afterReset; split_ifs <;> simp

theorem sendReset_flushed {T : Type} (s : System T) : (sendReset s).flushed = s.flushed := by
  unfold sendReset afterReset; split_ifs <;> simp

theorem sendReset_maxSize {T : Type} (s : System T) :
    (sendReset s).a.maxSize = s.a.maxSize := by
  unfold sendReset afterReset; split_ifs <;> simp

/-- The effect of the loop receiving an item. -/
theorem step_input {T : Type} (s s1 : System T) (i : T) (h : step s (Event.input i) = some s1) :
    s1.a.maxSize = s.a.maxSize ∧
    (((s.a.pool.length : Int) + 1 ≥ s.a.maxSize →
        s1.a.pool = [] ∧ s1.flushed = s.flushed ++ [s.a.pool ++ [i]]) ∧
     (¬ ((s.a.pool.length : Int) + 1 ≥ s.a.maxSize) →
        s1.a.pool = s.a.pool ++ [i] ∧ s1.flushed = s.flushed)) := by
  simp only [step] at h
  cases hl : s.loop with
  | sendingReset => simp [hl] at h
  | select c =>
    simp only [hl, Option.some.injEq] at h
    subst h
    unfold onInput
    simp only [List.length_append, List.length_singleton, Nat.cast_add, Nat.cast_one,
      startTimeout_pool, startTimeout_maxSize, startTimeout_flushed]
    by_cases hk : (s.a.pool.length : Int) + 1 ≥ s.a.maxSize
    · simp [hk, sendReset_pool, sendReset_flushed, sendReset_maxSize]
    · simp [hk, startTimeout_pool, startTimeout_maxSize, startTimeout_flushed]

/-- The effect of the loop receiving a timer's signal. -/
theorem step_timeout {T : Type} (s s1 : System T) (j : Nat)
    (h : step s (Event.timeout j) = some s1) :
    s1.a.maxSize = s.a.maxSize ∧
    ((s.a.pool ≠ [] → s1.a.pool = [] ∧ s1.flushed = s.flushed ++ [s.a.pool]) ∧
     (s.a.pool = [] → s1.a.pool = [] ∧ s1.flushed = s.flushed)) := by
  simp only [step] at h
  split at h
  · split_ifs at h
    simp only [Option.some.injEq] at h
    subst h
    unfold onTimeout
    by_cases hp : s.a.pool = []
    · simp [hp]
    · have : s.a.pool.length > 0 := List.length_pos.mpr hp
      simp [hp, this]
  · simp at h

/-- A step of a timer leaves the pool and the flushed batches as they are. -/
theorem step_wake {T : Type} (s s1 : System T) (j : Nat) (h : step s (Event.wake j) = some s1) :
    s1.a.maxSize = s.a.maxSize ∧ s1.a.pool = s.a.pool ∧ s1.flushed = s.flushed := by
  simp only [step] at h
  split at h
  · simp only [Option.some.injEq] at h
    subst h
    unfold onWake
    split_ifs
    · simp only
      split
      · simp [sendReset_pool, sendReset_flushed, sendReset_maxSize]
      · simp
    · simp
  · simp at h

theorem step_clear {T : Type} (s s1 : System T) (j : Nat) (h : step s (Event.clear j) = some s1) :
    s1.a.maxSize = s.a.maxSize ∧ s1.a.pool = s.a.pool ∧ s1.flushed = s.flushed := by
  simp only [step] at h
  split at h
  · simp only [Option.some.injEq] at h
    subst h
    simp
  · simp at h

end accumulator

namespace accumulator

/-- Every step keeps the items: batches flushed, then pool, then nothing else. -/
theorem step_conserves {T : Type} (s s1 : System T) (e : Event T) (h : step s e = some s1) :
    s1.a.maxSize = s.a.maxSize ∧
    s1.flushed.flatten ++ s1.a.pool = s.flushed.flatten ++ s.a.pool ++ inputs [e] := by
  cases e with
  | input i =>
    obtain ⟨hm, h1, h2⟩ := step_input s s1 i h
    refine ⟨hm, ?_⟩
    by_cases hk : (s.a.pool.length : Int) + 1 ≥ s.a.maxSize
    · obtain ⟨hp, hf⟩ := h1 hk
      simp [hp, hf, inputs]
    · obtain ⟨hp, hf⟩ := h2 hk
      simp [hp, hf, inputs]
  | timeout j =>
    obtain ⟨hm, h1, h2⟩ := step_timeout s s1 j h
    refine ⟨hm, ?_⟩
    by_cases hp : s.a.pool = []
    · obtain ⟨hp1, hf⟩ := h2 hp
      simp [hp1, hf, hp, inputs]
    · obtain ⟨hp1, hf⟩ := h1 hp
      simp [hp1, hf, inputs]
  | wake j =>
    obtain ⟨hm, hp, hf⟩ := step_wake s s1 j h
    simp [hm, hp, hf, inputs]
  | clear j =>
    obtain ⟨hm, hp, hf⟩ := step_clear s s1 j h
    simp [hm, hp, hf, inputs]

/-- With a positive threshold, every step keeps the pool below it and the batches within it. -/
theorem step_bounded {T : Type} (s s1 : System T) (e : Event T) (h : step s e = some s1)
    (hpool : (s.a.pool.length : Int) < s.a.maxSize)
    (hb : ∀ b ∈ s.flushed, (b.length : Int) ≤ s.a.maxSize) :
    (s1.a.pool.length : Int) < s1.a.maxSize ∧
    ∀ b ∈ s1.flushed, (b.length : Int) ≤ s1.a.maxSize := by
  have hpos : (0 : Int) < s.a.maxSize := lt_of_le_of_lt (Int.ofNat_nonneg _) hpool
  cases e with
  | input i =>
    obtain ⟨hm, h1, h2⟩ := step_input s s1 i h
    rw [hm]
    by_cases hk : (s.a.pool.length : Int) + 1 ≥ s.a.maxSize
    · obtain ⟨hp, hf⟩ := h1 hk
      rw [hp, hf]
      refine ⟨by simpa using hpos, ?_⟩
      intro b hbm
      rw [List.mem_append, List.mem_singleton] at hbm
      rcases hbm with hbm | hbm
      · exact hb b hbm
      · subst hbm
        simp only [List.length_append, List.length_singleton, Nat.cast_add, Nat.cast_one]
        omega
    · obtain ⟨hp, hf⟩ := h2 hk
      rw [hp, hf]
      refine ⟨?_, hb⟩
      simp only [List.length_append, List.length_singleton, Nat.cast_add, Nat.cast_one]
      omega
  | timeout j =>
    obtain ⟨hm, h1, h2⟩ := step_timeout s s1 j h
    rw [hm]
    by_cases hp : s.a.pool = []
    · obtain ⟨hp1, hf⟩ := h2 hp
      rw [hp1, hf]
      exact ⟨by simpa using hpos, hb⟩
    · obtain ⟨hp1, hf⟩ := h1 hp
      rw [hp1, hf]
      refine ⟨by simpa using hpos, ?_⟩
      intro b hbm
      rw [List.mem_append, List.mem_singleton] at hbm
      rcases hbm with hbm | hbm
      · exact hb b hbm
      · subst hbm
        omega
  | wake j =>
    obtain ⟨hm, hp, hf⟩ := step_wake s s1 j h
    rw [hm, hp, hf]
    exact ⟨hpool, hb⟩
  | clear j =>
    obtain ⟨hm, hp, hf⟩ := step_clear s s1 j h
    rw [hm, hp, hf]
    exact ⟨hpool, hb⟩

theorem inputs_cons {T : Type} (e : Event T) (es : List (Event T)) :
    inputs (e :: es) = inputs [e] ++ inputs es := by
  cases e <;> simp [inputs]

theorem run_conserves {T : Type} (evs : List (Event T)) (s s1 : System T)
    (h : run s evs = some s1) :
    s1.a.maxSize = s.a.maxSize ∧
    s1.flushed.flatten ++ s1.a.pool = s.flushed.flatten ++ s.a.pool ++ inputs evs := by
  induction evs generalizing s with
  | nil =>
    simp only [run, Option.some.injEq] at h
    subst h
    simp [inputs]
  | cons e es ih =>
    simp only [run] at h
    cases hs : step s e with
    | none => simp [hs] at h
    | some s2 =>
      rw [hs] at h
      obtain ⟨hm, hc⟩ := step_conserves s s2 e hs
      obtain ⟨hm2, hc2⟩ := ih s2 h
      refine ⟨hm2.trans hm, ?_⟩
      rw [hc2, hc, inputs_cons e es]
      simp

theorem run_bounded {T : Type} (evs : List (Event T)) (s s1 : System T)
    (h : run s evs = some s1)
    (hpool : (s.a.pool.length : Int) < s.a.maxSize)
    (hb : ∀ b ∈ s.flushed, (b.length : Int) ≤ s.a.maxSize) :
    (s1.a.pool.length : Int) < s1.a.maxSize ∧
    ∀ b ∈ s1.flushed, (b.length : Int) ≤ s1.a.maxSize := by
  induction evs generalizing s with
  | nil =>
    simp only [run, Option.some.injEq] at h
    subst h
    exact ⟨hpool, hb⟩
  | cons e es ih =>
    simp only [run] at h
    cases hs : step s e with
    | none => simp [hs] at h
    | some s2 =>
      rw [hs] at h
      obtain ⟨hp2, hb2⟩ := step_bounded s s2 e hs hpool hb
      exact ih s2 h hp2 hb2

theorem New_maxSize_of_pos (T : Type) (timeout k : Int) (hk : 1 ≤ k) :
    (New T timeout k).1.maxSize = k := by
  have : ¬ k = 0 := by omega
  unfold New
  by_cases ht : timeout = 0 <;> simp [ht, this]

theorem New_pool (T : Type) (timeout k : Int) : (New T timeout k).1.pool = [] := by
  unfold New
  by_cases ht : timeout = 0 <;> by_cases hk : k = 0 <;> simp [ht, hk]

/-- C4: on an accumulator made by `New` with `maxSize = k ≥ 1` and started with a callback,
after any sequence of steps of the loop and of the timers, the batches handed to the callback,
concatenated in the order of the calls and followed by the pool, are the items received, in
order of arrival, each once; and every batch handed to the callback has at most `k` items. -/
theorem flushes_conserve_items {T : Type} (timeout k : Int) (hk : 1 ≤ k)
    (evs : List (Event T)) (s : System T)
    (hrun : run (fresh T timeout k) evs = some s) :
    Start (New T timeout k).1 false = Except.ok (fresh T timeout k) ∧
    s.flushed.flatten ++ s.a.pool = inputs evs ∧
    ∀ b ∈ s.flushed, (b.length : Int) ≤ k := by
  have hm : (fresh T timeout k).a.maxSize = k := New_maxSize_of_pos T timeout k hk
  have hp : (fresh T timeout k).a.pool = [] := New_pool T timeout k
  have hf : (fresh T timeout k).flushed = [] := rfl
  obtain ⟨hm1, hc⟩ := run_conserves evs _ s hrun
  obtain ⟨_, hb⟩ := run_bounded evs _ s hrun (by rw [hp, hm]; simpa using hk)
    (by rw [hf]; simp)
  refine ⟨?_, ?_, ?_⟩
  · unfold Start fresh New
    by_cases ht : timeout = 0 <;> by_cases hk0 : k = 0 <;> simp [ht, hk0]
  · rw [hc, hp, hf]; simp
  · rw [hm1, hm] at hb; exact hb

theorem flushes_conserve_items_witness :
    (1 : Int) ≤ 2 ∧ run (fresh Nat 5 2) demoRun = some demoEnd ∧
    (Start (New Nat 5 2).1 false = Except.ok (fresh Nat 5 2) ∧
      demoEnd.flushed.flatten ++ demoEnd.a.pool = inputs demoRun ∧
      ∀ b ∈ demoEnd.flushed, (b.length : Int) ≤ 2) :=
  ⟨by decide, by decide, flushes_conserve_items 5 2 (by decide) demoRun demoEnd (by decide)⟩

end accumulator

namespace accumulator

theorem run_append {T : Type} (es fs : List (Event T)) (s : System T) :
    run s (es ++ fs) = (run s es).bind (fun s1 => run s1 fs) := by
  induction es generalizing s with
  | nil => simp [run]
  | cons e es ih =>
    simp only [List.cons_append, run]
    cases step s e with
    | none => simp
    | some s1 => simpa using ih s1

/-- Steps of the timers alone leave the pool and the flushed batches as they are. -/
theorem run_timers_only {T : Type} (evs : List (Event T)) (s s1 : System T)
    (hev : loopEvents evs = []) (h : run s evs = some s1) :
    s1.a.pool = s.a.pool ∧ s1.flushed = s.flushed := by
  induction evs generalizing s with
  | nil =>
    simp only [run, Option.some.injEq] at h
    subst h
    exact ⟨rfl, rfl⟩
  | cons e es ih =>
    simp only [run] at h
    cases hs : step s e with
    | none => simp [hs] at h
    | some s2 =>
      rw [hs] at h
      cases e with
      | input i => simp [loopEvents] at hev
      | timeout j => simp [loopEvents] at hev
      | wake j =>
        obtain ⟨_, hp, hf⟩ := step_wake s s2 j hs
        obtain ⟨hp2, hf2⟩ := ih s2 (by simpa [loopEvents] using hev) h
        exact ⟨hp2.trans hp, hf2.trans hf⟩
      | clear j =>
        obtain ⟨_, hp, hf⟩ := step_clear s s2 j hs
        obtain ⟨hp2, hf2⟩ := ih s2 (by simpa [loopEvents] using hev) h
        exact ⟨hp2.trans hp, hf2.trans hf⟩

/-- Items below the threshold stay in the pool until the timer's signal is received, which
flushes them as one batch. -/
theorem run_until_timeout {T : Type} (evs : List (Event T)) (s s1 : System T)
    (xs : List T)
    (hlen : ((s.a.pool.length : Int) + xs.length) < s.a.maxSize)
    (hne : s.a.pool ++ xs ≠ [])
    (hev : loopEvents evs = xs.map LoopEvent.input ++ [LoopEvent.timeout])
    (h : run s evs = some s1) :
    s1.flushed = s.flushed ++ [s.a.pool ++ xs] ∧ s1.a.pool = [] := by
  induction evs generalizing s xs with
  | nil => simp [loopEvents] at hev
  | cons e es ih =>
    simp only [run] at h
    cases hs : step s e with
    | none => simp [hs] at h
    | some s2 =>
      rw [hs] at h
      cases e with
      | input i =>
        cases xs with
        | nil => simp [loopEvents] at hev
        | cons x xs =>
          simp only [loopEvents, List.map_cons, List.cons_append, List.cons.injEq,
            LoopEvent.input.injEq] at hev
          obtain ⟨hix, hev⟩ := hev
          subst hix
          obtain ⟨hm, _, hno⟩ := step_input s s2 i hs
          simp only [List.length_cons, Nat.cast_add, Nat.cast_one] at hlen
          obtain ⟨hp, hf⟩ := hno (by omega)
          have := ih s2 xs (by rw [hp, hm]; simp; omega) (by simp [hp]) hev h
          rw [this.1, hp, hf]
          simp [this.2]
      | timeout j =>
        cases xs with
        | cons x xs => simp [loopEvents] at hev
        | nil =>
          simp only [loopEvents, List.map_nil, List.nil_append, List.cons.injEq, true_and] at hev
          obtain ⟨_, hfl, _⟩ := step_timeout s s2 j hs
          obtain ⟨hp, hf⟩ := hfl (by simpa using hne)
          obtain ⟨hp2, hf2⟩ := run_timers_only es s2 s1 hev h
          rw [hp2, hf2, hp, hf]
          simp
      | wake j =>
        obtain ⟨hm, hp, hf⟩ := step_wake s s2 j hs
        have := ih s2 xs (by rw [hp, hm]; exact hlen) (by rw [hp]; exact hne)
          (by simpa [loopEvents] using hev) h
        rw [this.1, hp, hf]
        exact ⟨rfl, this.2⟩
      | clear j =>
        obtain ⟨hm, hp, hf⟩ := step_clear s s2 j hs
        have := ih s2 xs (by rw [hp, hm]; exact hlen) (by rw [hp]; exact hne)
          (by simpa [loopEvents] using hev) h
        rw [this.1, hp, hf]
        exact ⟨rfl, this.2⟩

/-- With a timer pending, items below the threshold are received one after the other. -/
theorem run_inputs_armed {T : Type} (xs : List T) (t k : Int) (c : Chan) (r : Nat)
    (pool : List T) (timers : List Timer) (chans : Nat) (fl : List (List T))
    (hlen : ((pool.length : Int) + xs.length) < k) :
    run { a := { timeout := t, timeoutChan := some c, timeoutResetChan := r, maxSize := k,
                 pool := pool },
          loop := Loop.select (some c), timers := timers, chans := chans, flushed := fl }
        (xs.map Event.input)
      = some { a := { timeout := t, timeoutChan := some c, timeoutResetChan := r, maxSize := k,
                      pool := pool ++ xs },
               loop := Loop.select (some c), timers := timers, chans := chans,
               flushed := fl } := by
  induction xs generalizing pool with
  | nil => simp [run]
  | cons x xs ih =>
    simp only [List.length_cons, Nat.cast_add, Nat.cast_one] at hlen
    have hno : ¬ ((pool.length : Int) + 1 ≥ k) := by omega
    simp only [List.map_cons, run, step, onInput, startTimeout, List.length_append,
      List.length_singleton, Nat.cast_add, Nat.cast_one, hno, if_false]
    have := ih (pool ++ [x]) (by simp; omega)
    simpa using this

end accumulator

namespace accumulator

theorem fresh_eq (T : Type) (timeout k : Int) (hk : k ≠ 0) :
    fresh T timeout k
      = { a := { timeout := if timeout = 0 then 60 * Second else timeout, timeoutChan := none,
                 timeoutResetChan := 0, maxSize := k, pool := [] },
          loop := Loop.select none, timers := [], chans := 0, flushed := [] } := by
  unfold fresh New
  by_cases ht : timeout = 0 <;> simp [ht, hk]

/-- From a fresh accumulator, fewer items than the threshold followed by the wake-up of the
timer and the reception of its signal give one flush of all the items. -/
theorem run_fresh_then_timer {T : Type} (timeout k : Int) (xs : List T)
    (h1 : 1 ≤ xs.length) (h2 : (xs.length : Int) < k) :
    ∃ s1, run (fresh T timeout k) (xs.map Event.input ++ [Event.wake 0, Event.timeout 0])
        = some s1 ∧ s1.flushed = [xs] ∧ s1.a.pool = [] := by
  cases xs with
  | nil => simp at h1
  | cons x xs =>
    simp only [List.length_cons, Nat.cast_add, Nat.cast_one] at h2
    have hk : k ≠ 0 := by omega
    have hno : ¬ ((1 : Int) ≥ k) := by omega
    rw [fresh_eq T timeout k hk]
    simp only [List.map_cons, List.cons_append, run, step, onInput, startTimeout,
      List.nil_append, List.length_singleton, Nat.cast_one, hno, if_false, List.append_eq]
    rw [run_append, run_inputs_armed xs _ k 0 0 [x] _ _ _ (by simp; omega)]
    simp [run, step, onWake, onTimeout]

/-- C5: with `maxSize = k` and `1 ≤ m < k`, once `m` items have arrived on an empty pool and the
timer's signal is then received, exactly one flush has been added, its batch is those `m` items
in order of arrival, and the pool is empty, whatever the timers do in between; from a fresh
accumulator such a run exists; and the timer case on an empty pool calls the callback zero times
and leaves the pool empty. -/
theorem timer_flushes_pool {T : Type} (k : Int) (xs : List T)
    (h1 : 1 ≤ xs.length) (h2 : (xs.length : Int) < k) :
    (∀ (s s1 : System T) (evs : List (Event T)),
      s.a.maxSize = k → s.a.pool = [] →
      loopEvents evs = xs.map LoopEvent.input ++ [LoopEvent.timeout] →
      run s evs = some s1 →
      s1.flushed = s.flushed ++ [xs] ∧ s1.a.pool = []) ∧
    (∀ timeout : Int, ∃ s1 : System T,
      run (fresh T timeout k) (xs.map Event.input ++ [Event.wake 0, Event.timeout 0]) = some s1 ∧
      s1.flushed = [xs] ∧ s1.a.pool = []) ∧
    (∀ s : System T, s.a.pool = [] →
      (onTimeout s).flushed = s.flushed ∧ (onTimeout s).a.pool = []) := by
  refine ⟨?_, ?_, ?_⟩
  · intro s s1 evs hm hp hev hrun
    have hne : s.a.pool ++ xs ≠ [] := by
      rw [hp]
      intro h
      simp only [List.nil_append] at h
      rw [h] at h1
      simp at h1
    have := run_until_timeout evs s s1 xs (by rw [hp, hm]; simpa using h2) hne hev hrun
    rw [hp] at this
    simpa using this
  · intro timeout
    exact run_fresh_then_timer timeout k xs h1 h2
  · intro s hp
    unfold onTimeout
    simp [hp]

theorem timer_flushes_pool_witness :
    1 ≤ [7, 8].length ∧ (([7, 8].length : Nat) : Int) < 3 ∧
    ∃ s1 : System Nat,
      run (fresh Nat 0 3) ([7, 8].map Event.input ++ [Event.wake 0, Event.timeout 0]) = some s1 ∧
      s1.flushed = [[7, 8]] ∧ s1.a.pool = [] :=
  ⟨by decide, by decide, (timer_flushes_pool 3 [7, 8] (by decide) (by decide)).2.1 0⟩

end accumulator

namespace accumulator

/-- C6: at negative arguments `New` substitutes no default: the accumulator keeps the negative
timeout and the negative `maxSize`, and no warning is logged; only the arguments equal to zero
are replaced by 60 seconds and by 100. -/
theorem New_keeps_negative :
    (New Nat (-1) (-5)).1.timeout = -1 ∧ (New Nat (-1) (-5)).1.maxSize = -5 ∧
    (New Nat (-1) (-5)).2 = [] ∧
    (New Nat 0 0).1.timeout = 60 * Second ∧ (New Nat 0 0).1.maxSize = 100 := by
  decide

end accumulator

/-! ## Properties of `template.New` -/

namespace template

theorem parseTmplFile_of_failure {M D : Type} (env : Env M D) (path err : String)
    (t : TemplateType) (h : (env.file path).failure = some err) :
    parseTmplFile env path t = Except.error (Error.templateFileNotFound path err) := by
  unfold parseTmplFile
  cases hf : env.file path with
  | openError e => rw [hf] at h; simp only [File.failure, Option.some.injEq] at h; rw [h]
  | readError e => rw [hf] at h; simp only [File.failure, Option.some.injEq] at h; rw [h]
  | data d => rw [hf] at h; simp [File.failure] at h

theorem parseTmplFile_subject_of_data {M D : Type} (env : Env M D) (path d : String)
    (h : env.file path = File.data d) :
    parseTmplFile env path TemplateType.Subject
      = match env.parseText d with
        | Except.error err => Except.error (Error.library err)
        | Except.ok tmpl => Except.ok tmpl := by
  unfold parseTmplFile
  rw [h]

theorem parseTmplFile_body_of_data {M D : Type} (env : Env M D) (path d : String)
    (h : env.file path = File.data d) :
    parseTmplFile env path TemplateType.Body
      = match env.parseHtml d with
        | Except.error err => Except.error (Error.library err)
        | Except.ok tmpl => Except.ok tmpl := by
  unfold parseTmplFile
  rw [h]

/-- C7, as stated, fails: the body path names a missing file and the handler is known, but the
subject file has a syntax error, and `New` returns the syntax error with the delete flag
false. -/
theorem New_missing_body_after_bad_subject :
    (demoHandlers (demoRequest "welcome" "bad.tmpl" "missing.tmpl").Handler).isSome = true ∧
    (demoEnv.file (demoRequest "welcome" "bad.tmpl" "missing.tmpl").BodyTmplPath).failure
      = some "no such file or directory" ∧
    (New demoEnv (demoRequest "welcome" "bad.tmpl" "missing.tmpl") demoHandlers).2.2
      = (some (Error.library "unclosed action"), false) ∧
    (Error.library "unclosed action").isTemplateFileNotFoundError = false := by
  refine ⟨by decide, by decide, by decide, by decide⟩

/-- C7, amended: for a decoded request whose handler is known, `New` returns no template, a
`TemplateFileNotFoundError` carrying the path and the delete flag true when the subject path
names a missing or unreadable file, and when the subject file is readable and compiles and the
body path names a missing or unreadable file; when both files are readable and one of them has
a syntax error it returns no template, an error that is not a `TemplateFileNotFoundError`, and
the delete flag false. -/
theorem New_file_errors {M D σ : Type} (env : Env M D) (m : M)
    (hs : String → Option (handler.Handler σ)) (rr : RegistrationRequest)
    (h : handler.Handler σ) (hdec : env.decode m = (rr, none)) (hh : hs rr.Handler = some h) :
    (∀ err, (env.file rr.SubjectTmplPath).failure = some err →
      New env m hs
        = (none, rr.Name, some (Error.templateFileNotFound rr.SubjectTmplPath err), true)) ∧
    (∀ ds tmpl err, env.file rr.SubjectTmplPath = File.data ds →
      env.parseText ds = Except.ok tmpl →
      (env.file rr.BodyTmplPath).failure = some err →
      New env m hs
        = (none, rr.Name, some (Error.templateFileNotFound rr.BodyTmplPath err), true)) ∧
    (∀ ds db, env.file rr.SubjectTmplPath = File.data ds →
      env.file rr.BodyTmplPath = File.data db →
      ((∃ msg, env.parseText ds = Except.error msg) ∨
        (∃ msg, env.parseHtml db = Except.error msg)) →
      ∃ e, New env m hs = (none, rr.Name, some e, false) ∧
        e.isTemplateFileNotFoundError = false) := by
  refine ⟨?_, ?_, ?_⟩
  · intro err hf
    unfold New
    simp only [hdec, hh, parseTmplFile_of_failure env _ err _ hf,
      Error.isTemplateFileNotFoundError]
  · intro ds tmpl err hfs hp hfb
    unfold New
    simp only [hdec, hh, parseTmplFile_subject_of_data env _ ds hfs, hp,
      parseTmplFile_of_failure env _ err _ hfb, Error.isTemplateFileNotFoundError]
  · intro ds db hfs hfb hbad
    unfold New
    simp only [hdec, hh, parseTmplFile_subject_of_data env _ ds hfs,
      parseTmplFile_body_of_data env _ db hfb]
    cases hps : env.parseText ds with
    | error msg => exact ⟨Error.library msg, rfl, rfl⟩
    | ok tmpl =>
      rcases hbad with ⟨msg, hmsg⟩ | ⟨msg, hmsg⟩
      · rw [hps] at hmsg; cases hmsg
      · simp only [hmsg]
        exact ⟨Error.library msg, rfl, rfl⟩

theorem New_file_errors_witness :
    New demoEnv (demoRequest "welcome" "a.tmpl" "missing.tmpl") demoHandlers
      = (none, (demoRequest "welcome" "a.tmpl" "missing.tmpl").Name,
         some (Error.templateFileNotFound
           (demoRequest "welcome" "a.tmpl" "missing.tmpl").BodyTmplPath
           "no such file or directory"), true) :=
  (New_file_errors demoEnv (demoRequest "welcome" "a.tmpl" "missing.tmpl") demoHandlers
    (demoRequest "welcome" "a.tmpl" "missing.tmpl") notification.nullHandler rfl rfl).2.1
    "Hello" (fun _ => ("Hello", none)) "no such file or directory" rfl rfl rfl

theorem checkTemplateName_iff {D σ : Type} (t : Template D σ) :
    t.checkTemplateName = true ↔ ValidName t.Name := by
  unfold Template.checkTemplateName ValidName
  simp only [beq_iff_eq]
  rw [len_eq_zero_iff, replaceAllNameChars_eq_empty_iff]

/-- Whatever `New` returns as a template comes with no error, the request's name and a valid
name. -/
theorem New_some {M D σ : Type} (env : Env M D) (m : M)
    (hs : String → Option (handler.Handler σ)) (t : Template D σ)
    (h : (New env m hs).1 = some t) :
    New env m hs = (some t, t.Name, none, false) ∧ t.Name = (env.decode m).1.Name ∧
    ValidName t.Name := by
  unfold New at h ⊢
  cases hdec : env.decode m with
  | mk rr oe =>
    rw [hdec] at h
    cases oe with
    | some e => simp at h
    | none =>
      simp only at h ⊢
      cases hh : hs rr.Handler with
      | none => rw [hh] at h; simp at h
      | some hd =>
        rw [hh] at h
        simp only at h ⊢
        cases hps : parseTmplFile env rr.SubjectTmplPath TemplateType.Subject with
        | error e => rw [hps] at h; simp at h
        | ok ts =>
          rw [hps] at h
          simp only at h ⊢
          cases hpb : parseTmplFile env rr.BodyTmplPath TemplateType.Body with
          | error e => rw [hpb] at h; simp at h
          | ok tb =>
            rw [hpb] at h
            simp only at h ⊢
            by_cases hc : (Template.checkTemplateName
                ({ Name := rr.Name, Handler := hd, Persistent := false, tmplSubject := ts,
                   tmplBody := tb } : Template D σ)) = true
            · simp only [hc, Bool.not_true, Bool.false_eq_true, if_false,
                Option.some.injEq] at h ⊢
              subst h
              exact ⟨rfl, rfl, (checkTemplateName_iff _).mp hc⟩
            · simp [hc] at h

/-- C8: a request whose name has a character outside `[A-Za-z0-9-]` makes `New` fail, with an
error and no template, whatever the handler table and the template files are; and every template
`New` returns comes without error and has a name made only of characters of `[A-Za-z0-9-]`. -/
theorem New_checks_name {M D σ : Type} (env : Env M D) (m : M)
    (hs : String → Option (handler.Handler σ)) :
    (¬ ValidName (env.decode m).1.Name →
      (New env m hs).1 = none ∧ (New env m hs).2.2.1 ≠ none) ∧
    (∀ t, (New env m hs).1 = some t → (New env m hs).2.2.1 = none ∧ ValidName t.Name) := by
  constructor
  · intro hbad
    cases h1 : (New env m hs).1 with
    | some t =>
      obtain ⟨_, hn, hv⟩ := New_some env m hs t h1
      rw [hn] at hv
      exact absurd hv hbad
    | none =>
      refine ⟨rfl, ?_⟩
      unfold New at h1 ⊢
      cases hdec : env.decode m with
      | mk rr oe =>
        rw [hdec] at h1 hbad
        cases oe with
        | some e => simp
        | none =>
          simp only at h1 hbad ⊢
          cases hh : hs rr.Handler with
          | none => simp
          | some hd =>
            rw [hh] at h1
            simp only at h1 ⊢
            cases hps : parseTmplFile env rr.SubjectTmplPath TemplateType.Subject with
            | error e => simp
            | ok ts =>
              rw [hps] at h1
              simp only at h1 ⊢
              cases hpb : parseTmplFile env rr.BodyTmplPath TemplateType.Body with
              | error e => simp
              | ok tb =>
                rw [hpb] at h1
                simp only at h1 ⊢
                by_cases hc : (Template.checkTemplateName
                    ({ Name := rr.Name, Handler := hd, Persistent := false, tmplSubject := ts,
                       tmplBody := tb } : Template D σ)) = true
                · simp [hc] at h1
                · simp [hc]
  · intro t ht
    obtain ⟨he, _, hv⟩ := New_some env m hs t ht
    rw [he]
    exact ⟨rfl, hv⟩

theorem New_checks_name_witness :
    ¬ ValidName (demoEnv.decode (demoRequest "bad name!" "a.tmpl" "b.tmpl")).1.Name ∧
    (New demoEnv (demoRequest "bad name!" "a.tmpl" "b.tmpl") demoHandlers).1 = none ∧
    (New demoEnv (demoRequest "bad name!" "a.tmpl" "b.tmpl") demoHandlers).2.2.1 ≠ none :=
  ⟨by decide,
   (New_checks_name demoEnv (demoRequest "bad name!" "a.tmpl" "b.tmpl") demoHandlers).1
     (by decide)⟩

end template

/-! ## Properties of the registry -/

namespace registry

/-- A successful construction makes `Put` store the template under its name. -/
theorem Put_of_New_ok {M D σ : Type} (r : Registry D σ) (env : template.Env M D)
    (unmarshal : List UInt8 → Except String M) (tb : List UInt8)
    (hs : String → Option (handler.Handler σ)) (m : M) (t : template.Template D σ)
    (name : String) (delete : Bool)
    (hu : unmarshal tb = Except.ok m)
    (hn : template.New env m hs = (some t, name, none, delete)) :
    r.Put env unmarshal tb hs
      = some ({ store := fun n => if n = t.Name then some t else r.store n }, some t.Name,
          none, false) := by
  unfold Registry.Put
  simp only [hu, hn]

/-- C9: when two payloads construct successfully templates of the same name, after `Put` of the
first and `Put` of the second, `Get` of that name succeeds and returns the template built from
the second payload, and the entries of all other names are those of the registry before the two
calls. -/
theorem Put_twice_replaces {M D σ : Type} (r : Registry D σ) (env : template.Env M D)
    (unmarshal : List UInt8 → Except String M) (tb1 tb2 : List UInt8)
    (hs : String → Option (handler.Handler σ)) (m1 m2 : M) (t1 t2 : template.Template D σ)
    (name1 name2 : String) (d1 d2 : Bool)
    (hu1 : unmarshal tb1 = Except.ok m1) (hu2 : unmarshal tb2 = Except.ok m2)
    (hn1 : template.New env m1 hs = (some t1, name1, none, d1))
    (hn2 : template.New env m2 hs = (some t2, name2, none, d2))
    (hname : t1.Name = t2.Name) :
    ∃ r1 r2 : Registry D σ,
      r.Put env unmarshal tb1 hs = some (r1, some t1.Name, none, false) ∧
      r1.Put env unmarshal tb2 hs = some (r2, some t2.Name, none, false) ∧
      r2.Get t2.Name = (some t2, none) ∧
      (∀ n, n ≠ t2.Name → r2.store n = r.store n ∧ r2.Get n = r.Get n) := by
  refine ⟨{ store := fun n => if n = t1.Name then some t1 else r.store n },
    { store := fun n => if n = t2.Name then some t2
        else (if n = t1.Name then some t1 else r.store n) },
    Put_of_New_ok r env unmarshal tb1 hs m1 t1 name1 d1 hu1 hn1,
    Put_of_New_ok _ env unmarshal tb2 hs m2 t2 name2 d2 hu2 hn2, ?_, ?_⟩
  · simp [Registry.Get]
  · intro n hne
    have hne1 : n ≠ t1.Name := by rw [hname]; exact hne
    simp [Registry.Get, hne, hne1]

theorem Put_twice_replaces_witness :
    ∃ r1 r2 : Registry Unit Unit,
      (New Unit Unit).Put template.demoEnv demoUnmarshal [1] template.demoHandlers
        = some (r1, some "welcome", none, false) ∧
      r1.Put template.demoEnv demoUnmarshal [2] template.demoHandlers
        = some (r2, some "welcome", none, false) ∧
      r2.Get "welcome"
        = (some { Name := "welcome", Handler := notification.nullHandler, Persistent := false,
                  tmplSubject := fun _ => ("Bye", none), tmplBody := fun _ => ("Bye", none) },
           none) ∧
      (∀ n, n ≠ "welcome" →
        r2.store n = (New Unit Unit).store n ∧ r2.Get n = (New Unit Unit).Get n) :=
  Put_twice_replaces (New Unit Unit) template.demoEnv demoUnmarshal [1] [2]
    template.demoHandlers (template.demoRequest "welcome" "a.tmpl" "a.tmpl")
    (template.demoRequest "welcome" "b.tmpl" "b.tmpl")
    { Name := "welcome", Handler := notification.nullHandler, Persistent := false,
      tmplSubject := fun _ => ("Hello", none), tmplBody := fun _ => ("Hello", none) }
    { Name := "welcome", Handler := notification.nullHandler, Persistent := false,
      tmplSubject := fun _ => ("Bye", none), tmplBody := fun _ => ("Bye", none) }
    "welcome" "welcome" false false rfl rfl rfl rfl rfl

/-- C10, as stated, fails: `Get` of a name without entry, here in a fresh registry, fails with
the plain value of `fmt.Errorf`, which has no error type of its own: no typed `TemplateNotFound`
error is returned, and the error is of the same kind as the `unknown handler` error of
`template.New`, told apart by its text only. -/
theorem Get_not_found_is_untyped :
    ((New Unit Unit).Get "welcome").1.isNone = true ∧
    ((New Unit Unit).Get "welcome").2
      = some (Error.errorString "template welcome not found") ∧
    (¬ ∃ e, ((New Unit Unit).Get "welcome").2 = some e ∧ e.isTyped = true) ∧
    (template.New template.demoEnv
        { template.demoRequest "welcome" "a.tmpl" "b.tmpl" with Handler := "smtp" }
        template.demoHandlers).2.2.1
      = some (Error.errorString "unknown handler smtp") := by
  refine ⟨rfl, by decide, ?_, by decide⟩
  rintro ⟨e, h1, h2⟩
  have h3 : ((New Unit Unit).Get "welcome").2
      = some (Error.errorString "template welcome not found") := by decide
  rw [h3, Option.some.injEq] at h1
  subst h1
  simp [Error.isTyped] at h2

/-- C10, amended: `Get` of a name with no entry, and so of any name in a fresh registry, returns
no template and the plain error `template <name> not found`, a value of `fmt.Errorf` without an
error type of its own, whose message names exactly the requested name; `Get` of a name with an
entry returns the entry and no error. -/
theorem Get_spec {D σ : Type} (r : Registry D σ) (n : String) :
    (r.store n = none →
      r.Get n = (none, some (Error.errorString ("template " ++ n ++ " not found")))) ∧
    (New D σ).Get n = (none, some (Error.errorString ("template " ++ n ++ " not found"))) ∧
    (Error.errorString ("template " ++ n ++ " not found")).isTyped = false ∧
    (∀ t, r.store n = some t → r.Get n = (some t, none)) := by
  refine ⟨?_, rfl, rfl, ?_⟩
  · intro h
    unfold Registry.Get
    rw [h]
  · intro t h
    unfold Registry.Get
    rw [h]

theorem Get_spec_witness :
    (⟨fun n => if n = "a" then some notification.constTemplate else none⟩ :
        Registry Unit Unit).Get "welcome"
      = (none, some (Error.errorString ("template " ++ "welcome" ++ " not found"))) ∧
    (⟨fun n => if n = "a" then some notification.constTemplate else none⟩ :
        Registry Unit Unit).Get "a" = (some notification.constTemplate, none) :=
  ⟨(Get_spec ⟨fun n => if n = "a" then some notification.constTemplate else none⟩
      "welcome").1 rfl,
   (Get_spec ⟨fun n => if n = "a" then some notification.constTemplate else none⟩
      "a").2.2.2 notification.constTemplate rfl⟩

end registry

namespace accumulator

/-- C12: the reset signal of a size-triggered flush can outlive its window.  With `maxSize = 2`:
the timer of the first window wakes up on an empty reset channel and begins its send; the loop
takes the second item instead, flushes by size and buffers a reset signal that this timer will
never read; the timer of the second window then wakes up, finds that signal and returns without
firing.  The item `3` stays in the pool and, until another item arrives, no step is enabled: no
timer can fire, wake up or clear. -/
theorem stale_reset_suppresses_timer :
    (run (fresh Nat 5 2) (staleRun.take 3)).map
        (fun s => (s.flushed, s.a.timeoutResetChan, s.timers))
      = some ([[1, 2]], 1, [Timer.sending (some 0)]) ∧
    run (fresh Nat 5 2) staleRun = some staleEnd ∧
    staleEnd.a.pool = [3] ∧ staleEnd.flushed = [[1, 2]] ∧
    staleEnd.timers = [Timer.sending (some 0), Timer.done] ∧
    (∀ j, step staleEnd (Event.timeout j) = none ∧ step staleEnd (Event.wake j) = none ∧
      step staleEnd (Event.clear j) = none) := by
  refine ⟨by decide, by decide, rfl, rfl, rfl, ?_⟩
  intro j
  rcases j with _ | _ | j <;> simp [step, staleEnd]

end accumulator

namespace template

/-- The shape of every template `New` returns. -/
theorem New_some_fields {M D σ : Type} (env : Env M D) (m : M)
    (hs : String → Option (handler.Handler σ)) (t : Template D σ)
    (h : (New env m hs).1 = some t) :
    t.Name = (env.decode m).1.Name ∧ hs (env.decode m).1.Handler = some t.Handler ∧
    t.Persistent = false := by
  unfold New at h
  cases hdec : env.decode m with
  | mk rr oe =>
    rw [hdec] at h
    cases oe with
    | some e => simp at h
    | none =>
      simp only at h ⊢
      cases hh : hs rr.Handler with
      | none => rw [hh] at h; simp at h
      | some hd =>
        rw [hh] at h
        simp only at h
        cases hps : parseTmplFile env rr.SubjectTmplPath TemplateType.Subject with
        | error e => rw [hps] at h; simp at h
        | ok ts =>
          rw [hps] at h
          simp only at h
          cases hpb : parseTmplFile env rr.BodyTmplPath TemplateType.Body with
          | error e => rw [hpb] at h; simp at h
          | ok tb =>
            rw [hpb] at h
            simp only at h
            by_cases hc : (Template.checkTemplateName
                ({ Name := rr.Name, Handler := hd, Persistent := false, tmplSubject := ts,
                   tmplBody := tb } : Template D σ)) = true
            · simp only [hc, Bool.not_true, Bool.false_eq_true, if_false,
                Option.some.injEq] at h
              subst h
              exact ⟨rfl, rfl, rfl⟩
            · simp [hc] at h

/-- C14: a template returned by `New` has the name of the request and the handler that the
handler table holds for the request's handler name, and its `Persistent` flag is false whatever
the request's `Persistent` field is. -/
theorem New_drops_persistent {M D σ : Type} (env : Env M D) (m : M)
    (hs : String → Option (handler.Handler σ)) (rr : RegistrationRequest)
    (t : Template D σ) (name : String) (delete : Bool)
    (hdec : env.decode m = (rr, none))
    (h : New env m hs = (some t, name, none, delete)) :
    t.Name = rr.Name ∧ name = rr.Name ∧ hs rr.Handler = some t.Handler ∧
    t.Persistent = false := by
  have h1 : (New env m hs).1 = some t := by rw [h]
  obtain ⟨hn, hh, hp⟩ := New_some_fields env m hs t h1
  obtain ⟨he, _, _⟩ := New_some env m hs t h1
  rw [hdec] at hn hh
  rw [he] at h
  simp only [Prod.mk.injEq, true_and] at h
  exact ⟨hn, by rw [← h.1, hn], hh, hp⟩

theorem New_drops_persistent_witness :
    (demoRequest "welcome" "a.tmpl" "b.tmpl").Persistent = true ∧
    (({ Name := "welcome", Handler := notification.nullHandler, Persistent := false,
        tmplSubject := fun _ => ("Hello", none), tmplBody := fun _ => ("Bye", none) } :
        Template Unit Unit).Name = (demoRequest "welcome" "a.tmpl" "b.tmpl").Name ∧
      "welcome" = (demoRequest "welcome" "a.tmpl" "b.tmpl").Name ∧
      demoHandlers (demoRequest "welcome" "a.tmpl" "b.tmpl").Handler
        = some ({ Name := "welcome", Handler := notification.nullHandler, Persistent := false,
                  tmplSubject := fun _ => ("Hello", none),
                  tmplBody := fun _ => ("Bye", none) } : Template Unit Unit).Handler ∧
      ({ Name := "welcome", Handler := notification.nullHandler, Persistent := false,
         tmplSubject := fun _ => ("Hello", none), tmplBody := fun _ => ("Bye", none) } :
        Template Unit Unit).Persistent = false) :=
  ⟨rfl, New_drops_persistent demoEnv (demoRequest "welcome" "a.tmpl" "b.tmpl") demoHandlers
    (demoRequest "welcome" "a.tmpl" "b.tmpl")
    { Name := "welcome", Handler := notification.nullHandler, Persistent := false,
      tmplSubject := fun _ => ("Hello", none), tmplBody := fun _ => ("Bye", none) }
    "welcome" false rfl rfl⟩

end template

namespace template

/-- When `New` returns no template it returns an error. -/
theorem New_none_error {M D σ : Type} (env : Env M D) (m : M)
    (hs : String → Option (handler.Handler σ)) (h : (New env m hs).1 = none) :
    ∃ e, (New env m hs).2.2.1 = some e := by
  unfold New at h ⊢
  cases hdec : env.decode m with
  | mk rr oe =>
    rw [hdec] at h
    cases oe with
    | some e => exact ⟨e, rfl⟩
    | none =>
      simp only at h ⊢
      cases hh : hs rr.Handler with
      | none => exact ⟨_, rfl⟩
      | some hd =>
        rw [hh] at h
        simp only at h ⊢
        cases hps : parseTmplFile env rr.SubjectTmplPath TemplateType.Subject with
        | error e => exact ⟨e, rfl⟩
        | ok ts =>
          rw [hps] at h
          simp only at h ⊢
          cases hpb : parseTmplFile env rr.BodyTmplPath TemplateType.Body with
          | error e => exact ⟨e, rfl⟩
          | ok tb =>
            rw [hpb] at h
            simp only at h ⊢
            by_cases hc : (Template.checkTemplateName
                ({ Name := rr.Name, Handler := hd, Persistent := false, tmplSubject := ts,
                   tmplBody := tb } : Template D σ)) = true
            · simp [hc] at h
            · simp [hc]

end template

namespace registry

/-- The method `Put` always returns: it never dereferences a `nil` template. -/
theorem Put_isSome {M D σ : Type} (r : Registry D σ) (env : template.Env M D)
    (unmarshal : List UInt8 → Except String M) (tb : List UInt8)
    (hs : String → Option (handler.Handler σ)) :
    (r.Put env unmarshal tb hs).isSome = true := by
  unfold Registry.Put
  cases hu : unmarshal tb with
  | error e => rfl
  | ok data =>
    simp only
    cases hN : template.New env data hs with
    | mk ot rest =>
      obtain ⟨name, oe, d⟩ := rest
      cases oe with
      | some err => cases ot <;> rfl
      | none =>
        cases ot with
        | some t => rfl
        | none =>
          obtain ⟨e, he⟩ := template.New_none_error env data hs (by rw [hN])
          rw [hN] at he
          cases he

/-- C13: `Put` always returns; when it returns an error the registry is the one it was called
on, so every `Get` answers as before the call; and on a payload that `json.Unmarshal` rejects it
returns no name, the wrapped error and the delete flag false. -/
theorem Put_error_keeps_store {M D σ : Type} (r : Registry D σ) (env : template.Env M D)
    (unmarshal : List UInt8 → Except String M) (tb : List UInt8)
    (hs : String → Option (handler.Handler σ)) :
    (r.Put env unmarshal tb hs).isSome = true ∧
    (∀ r1 name err delete, r.Put env unmarshal tb hs = some (r1, name, some err, delete) →
      r1 = r ∧ ∀ n, r1.Get n = r.Get n) ∧
    (∀ e, unmarshal tb = Except.error e →
      r.Put env unmarshal tb hs
        = some (r, none,
            some (Error.withMessage (Error.library e) "template registration unmarshall failed"),
            false)) := by
  refine ⟨Put_isSome r env unmarshal tb hs, ?_, ?_⟩
  · intro r1 name err delete h
    have hr : r1 = r := by
      unfold Registry.Put at h
      cases hu : unmarshal tb with
      | error e =>
        rw [hu] at h
        simp only [Option.some.injEq, Prod.mk.injEq] at h
        exact h.1.symm
      | ok data =>
        rw [hu] at h
        simp only at h
        cases hN : template.New env data hs with
        | mk ot rest =>
          obtain ⟨nm, oe, d⟩ := rest
          rw [hN] at h
          cases oe with
          | some e1 =>
            cases ot <;>
              (simp only [Option.some.injEq, Prod.mk.injEq] at h
               exact h.1.symm)
          | none =>
            cases ot with
            | some t => simp at h
            | none => simp at h
    subst hr
    exact ⟨rfl, fun _ => rfl⟩
  · intro e hu
    unfold Registry.Put
    rw [hu]

theorem Put_error_keeps_store_witness :
    (New Unit Unit).Put template.demoEnv demoUnmarshal [9] template.demoHandlers
      = some (New Unit Unit, none,
          some (Error.withMessage (Error.library "invalid character")
            "template registration unmarshall failed"), false) :=
  (Put_error_keeps_store (New Unit Unit) template.demoEnv demoUnmarshal [9]
    template.demoHandlers).2.2 "invalid character" rfl

end registry

namespace notificationhelper

theorem RegisterTemplate_any_addStream {β M : Type} (nats : Nats β) (codec : Codec M)
    (rr : template.RegistrationRequest) (w : BrokerWorld β) :
    (RegisterTemplate nats codec rr w).calls.any BrokerCall.isAddStream
      = w.calls.any BrokerCall.isAddStream := by
  unfold RegisterTemplate
  cases codec.marshal rr with
  | error e => rfl
  | ok tb =>
    simp only
    cases hP : nats.Put rr.Name tb w.broker with
    | mk oe b =>
      cases oe <;> simp [BrokerCall.isAddStream]

theorem RegisterTemplates_any_addStream {β M : Type} (nats : Nats β) (codec : Codec M)
    (ts : List (String × M)) (w : BrokerWorld β) :
    (RegisterTemplates nats codec ts w).2.calls.any BrokerCall.isAddStream
      = w.calls.any BrokerCall.isAddStream := by
  have hfold : ∀ (tc : List template.RegistrationRequest) (w0 : BrokerWorld β),
      (tc.foldl (fun w1 c => RegisterTemplate nats codec c w1) w0).calls.any
          BrokerCall.isAddStream
        = w0.calls.any BrokerCall.isAddStream := by
    intro tc
    induction tc with
    | nil => intro w0; rfl
    | cons c cs ih =>
      intro w0
      rw [List.foldl_cons, ih, RegisterTemplate_any_addStream]
  unfold RegisterTemplates
  split_ifs
  · rfl
  · cases codec.decode ts with
    | error e => rfl
    | ok tc => exact hfold tc w

/-- Once connected, `Start` issues the stream-creation call exactly when `StreamInfo` answers a
stream. -/
theorem Start_addStream_iff_found {β M : Type} (nats : Nats β) (codec : Codec M)
    (nh : NotificationHelper) (ts : List (String × M)) (b b1 b2 : β)
    (hc : nats.Connect nh.Conf.NatsAddress nh.Conf.NatsToken b = (none, b1))
    (hj : nats.JetStream b1 = (none, b2)) :
    (Start nats codec nh ts { broker := b, calls := [], log := [] }).2.2.calls.any
        BrokerCall.isAddStream
      = (nats.StreamInfo (utils.WithDefault nh.Conf.NatsStream "reva-notifications")
          b2).1.1.isSome := by
  cases hS : nats.StreamInfo (utils.WithDefault nh.Conf.NatsStream "reva-notifications") b2 with
  | mk res b3 =>
    obtain ⟨stream, serr⟩ := res
    cases stream with
    | none =>
      cases hK : nats.CreateKeyValue
          (utils.WithDefault nh.Conf.NatsStream "reva-notifications" ++ "-template") b3 with
      | mk oe b5 =>
        unfold Start
        simp only [hc, hj, hS, hK, Option.isSome_none, Bool.false_eq_true, if_false]
        cases oe with
        | some e => simp [BrokerCall.isAddStream]
        | none =>
          simp only
          split
          · rename_i heq
            have h1 := congrArg (fun r => r.2.calls.any BrokerCall.isAddStream) heq
            simp only [RegisterTemplates_any_addStream] at h1
            simpa [BrokerCall.isAddStream] using h1.symm
          · rename_i heq
            have h1 := congrArg (fun r => r.2.calls.any BrokerCall.isAddStream) heq
            simp only [RegisterTemplates_any_addStream] at h1
            split_ifs <;> simpa [BrokerCall.isAddStream] using h1.symm
    | some c =>
      cases hA : nats.AddStream
          { Name := utils.WithDefault nh.Conf.NatsStream "reva-notifications",
            Subjects := [utils.WithDefault nh.Conf.NatsStream "reva-notifications"
                           ++ ".notification",
                         utils.WithDefault nh.Conf.NatsStream "reva-notifications"
                           ++ ".trigger"] } b3 with
      | mk ae b4 =>
        cases hK : nats.CreateKeyValue
            (utils.WithDefault nh.Conf.NatsStream "reva-notifications" ++ "-template") b4 with
        | mk oe b5 =>
          unfold Start
          simp only [hc, hj, hS, hA, hK, Option.isSome_some, if_true]
          cases ae with
          | some e => simp [BrokerCall.isAddStream]
          | none =>
            simp only [hK]
            cases oe with
            | some e => simp [BrokerCall.isAddStream]
            | none =>
              simp only
              split
              · rename_i heq
                have h1 := congrArg (fun r => r.2.calls.any BrokerCall.isAddStream) heq
                simp only [RegisterTemplates_any_addStream] at h1
                simpa [BrokerCall.isAddStream] using h1.symm
              · rename_i heq
                have h1 := congrArg (fun r => r.2.calls.any BrokerCall.isAddStream) heq
                simp only [RegisterTemplates_any_addStream] at h1
                split_ifs <;> simpa [BrokerCall.isAddStream] using h1.symm

end notificationhelper

namespace notificationhelper

/-- C11: `Start` issues `AddStream` when the lookup finds the stream and skips it when the
stream is absent.  On a broker without streams `Start` succeeds after the calls `Connect`,
`JetStream`, `StreamInfo` and `CreateKeyValue`, and the broker still has no stream; on a broker
that holds the stream, `Start` issues `AddStream` for it, with the subjects
`<stream>.notification` and `<stream>.trigger`. -/
theorem Start_creates_stream_only_when_found :
    (Start demoNats demoCodec demoHelper [] { broker := [], calls := [], log := [] }).1 = none ∧
    (Start demoNats demoCodec demoHelper [] { broker := [], calls := [], log := [] }).2.2.calls
      = [BrokerCall.Connect "nats:4222" "tok", BrokerCall.JetStream 256,
         BrokerCall.StreamInfo "reva-notifications",
         BrokerCall.CreateKeyValue "reva-notifications-template"] ∧
    (Start demoNats demoCodec demoHelper [] { broker := [], calls := [], log := [] }).2.2.broker
      = [] ∧
    (Start demoNats demoCodec demoHelper []
        { broker := [demoStream], calls := [], log := [] }).2.2.calls
      = [BrokerCall.Connect "nats:4222" "tok", BrokerCall.JetStream 256,
         BrokerCall.StreamInfo "reva-notifications",
         BrokerCall.AddStream
           { Name := "reva-notifications",
             Subjects := ["reva-notifications.notification", "reva-notifications.trigger"] },
         BrokerCall.CreateKeyValue "reva-notifications-template"] := by
  refine ⟨by decide, by decide, by decide, by decide⟩

end notificationhelper

end Reva
